import Mathlib

/-!
# Verification of the SF2 instrument plugin (`src/dsp/sf2_plugin.c`)

Shallow embedding of the plugin's instance engine and proofs about it.

Modelling conventions, stated once:

* C strings and fixed-size `char` buffers are modelled as unbounded Lean
  `String`s; truncation at buffer bounds (`snprintf`/`strncpy` size limits)
  is not modelled.  Byte-level C library routines (`strrchr`, `strcasecmp`,
  `tolower`, `atoi`, `atof`) are modelled directly over `List Char`
  (ASCII-only case folding, matching the C locale).
* The FluidLite synthesis engine is an external collaborator: the plugin
  only issues commands to it.  Commands are recorded as an `EngineCmd`
  trace.  The engine's replies (the id returned by `fluid_synth_sfload`
  and the preset sequence enumerated by `build_preset_list`'s iteration)
  are supplied by an `Env` oracle.  A live instance always has a non-null
  `synth` handle (creation fails otherwise), so the `!inst->synth` guards
  are modelled as always passing.
* The directory contents read by `opendir`/`readdir` are supplied by
  `Env.listing` (`none` models a failed `opendir`).  `qsort` is modelled
  by `List.mergeSort`; every property proved about the sorted catalog is
  independent of which correct sorting algorithm the C library uses.
* `float` arithmetic (the `gain` field) is modelled over `ℚ`; the
  `"%.2f"` formatting used by `snprintf` is modelled by rounding to
  hundredths (`round2`).
* The composite `state` parameter is modelled at both levels.
  `get_param("state")` renders the five fields with the exact `snprintf`
  format (`stateJson` over `get_state`); `set_param("state", ·)` is
  modelled at string level (`set_state_str`), reproducing the source's
  `strstr`-based extraction (`json_get_string`, `json_get_number`) over
  the raw value.  `set_state` is the blob-level specification that the
  string level provably equals whenever the five transported fields
  parse back out of the string (`set_state_str_eq`) — a condition a
  soundfont file name containing JSON syntax can defeat.
-/

namespace Sf2

/-! ## Byte-level string helpers (models of C library routines) -/

/-- Model of `tolower` in the C locale: ASCII upper-case letters map to
lower case, all other characters are unchanged. -/
def lowerC (c : Char) : Char :=
  if 65 ≤ c.toNat ∧ c.toNat ≤ 90 then Char.ofNat (c.toNat + 32) else c

/-- Lower-case an entire character list (used to model `strcasecmp`). -/
def lowerL (l : List Char) : List Char := l.map lowerC

/-- Lexicographic `≤` on character lists by code point; `lexLe a b = true`
iff `strcasecmp`-style comparison of the (already folded) lists is `≤ 0`. -/
def lexLe : List Char → List Char → Bool
  | [], _ => true
  | _ :: _, [] => false
  | a :: x, b :: y =>
    if a.toNat < b.toNat then true
    else if b.toNat < a.toNat then false
    else lexLe x y

/-- Characters after the last `'/'` (the empty path gives the empty list);
models `strrchr(s, '/') ? strrchr(s, '/') + 1 : s`. -/
def basenameL (l : List Char) : List Char :=
  (l.reverse.takeWhile (fun c => c ≠ '/')).reverse

/-- String version of `basenameL`. -/
def basename (s : String) : String := String.mk (basenameL s.data)

/-- Suffix of a file name from its last `'.'` (inclusive), i.e. the
extension as returned by `strrchr(name, '.')`; `none` when the name has
no dot. -/
def extOf (l : List Char) : Option (List Char) :=
  if '.' ∈ l then some ('.' :: (l.reverse.takeWhile (fun c => c ≠ '.')).reverse)
  else none

/-- Model of `isspace` in the C locale. -/
def isSpaceC (c : Char) : Bool :=
  c = ' ' ∨ c.toNat = 9 ∨ c.toNat = 10 ∨ c.toNat = 11 ∨ c.toNat = 12 ∨ c.toNat = 13

/-- Accumulate a digit list into a natural number. -/
def digitsToNat (l : List Char) : Nat :=
  l.foldl (fun a c => a * 10 + (c.toNat - 48)) 0

/-- Model of C `atoi`: optional whitespace, optional sign, leading digits;
anything else parses as `0`. -/
def atoi (s : String) : Int :=
  match s.data.dropWhile isSpaceC with
  | '-' :: t => -(digitsToNat (t.takeWhile Char.isDigit) : Int)
  | '+' :: t => (digitsToNat (t.takeWhile Char.isDigit) : Int)
  | t => (digitsToNat (t.takeWhile Char.isDigit) : Int)

/-- Model of C `atof` restricted to plain decimal notation (optional
whitespace, optional sign, integer part, optional fraction).  Exponent
and hexadecimal forms accepted by `atof` are not modelled; no input the
plugin feeds to `atof` uses them. -/
def atofQ (s : String) : ℚ :=
  let l := s.data.dropWhile isSpaceC
  let sgn : ℚ := match l with
    | '-' :: _ => -1
    | _ => 1
  let l2 := match l with
    | '-' :: t => t
    | '+' :: t => t
    | t => t
  let ip := l2.takeWhile Char.isDigit
  let rest := l2.dropWhile Char.isDigit
  let fp := match rest with
    | '.' :: t => t.takeWhile Char.isDigit
    | _ => []
  sgn * ((digitsToNat ip : ℚ) + (digitsToNat fp : ℚ) / (10 : ℚ) ^ fp.length)

/-- Model of C `strstr`: the suffix of the haystack starting at the
first occurrence of the pattern (`none` when absent). -/
def strstrSuffix (pat : List Char) : List Char → Option (List Char)
  | [] => if pat.isPrefixOf ([] : List Char) then some [] else none
  | c :: t => if pat.isPrefixOf (c :: t) then some (c :: t) else strstrSuffix pat t

/-- Truncation toward zero, the C `(int)`/`(int16_t)` cast of a float. -/
def truncQ (q : ℚ) : Int := Int.tdiv q.num (q.den : Int)

/-! ## Rounding to hundredths (model of `"%.2f"` formatting) -/

/-- Computable floor of a rational. -/
def floorQ (q : ℚ) : Int := Int.fdiv q.num (q.den : Int)

/-- Integer number of hundredths printed by `"%.2f"`.  C's `printf`
rounds the binary `float` to the nearest hundredth; ties are immaterial
to every claim below, so round-half-up is used. -/
def round2Int (q : ℚ) : Int := floorQ (q * 100 + 1 / 2)

/-- The rational value carried by the `"%.2f"` rendering of `q`. -/
def round2 (q : ℚ) : ℚ := (round2Int q : ℚ) / 100

/-- Two-digit zero-padded rendering of `n < 100`. -/
def pad2 (n : Nat) : String :=
  if n < 10 then "0" ++ toString n else toString n

/-- Decimal string produced by `snprintf(..., "%.2f", q)`. -/
def format2 (q : ℚ) : String :=
  let c := round2Int q
  (if c < 0 then "-" else "") ++ toString (c.natAbs / 100) ++ "." ++ pad2 (c.natAbs % 100)

theorem floorQ_eq_floor (q : ℚ) : floorQ q = ⌊q⌋ := by
  rw [Rat.floor_def, floorQ, Int.fdiv_eq_ediv _ (by positivity)]

theorem round2Int_eq_round (q : ℚ) : round2Int q = round (q * 100) := by
  rw [round2Int, floorQ_eq_floor, round_eq]

theorem round2_intCast_div (k : ℤ) : round2 ((k : ℚ) / 100) = (k : ℚ) / 100 := by
  rw [round2, round2Int_eq_round, div_mul_cancel₀ _ (by norm_num : (100 : ℚ) ≠ 0),
    round_intCast]

theorem round2_idem (q : ℚ) : round2 (round2 q) = round2 q := by
  have h : round2 q = ((round2Int q : ℚ)) / 100 := rfl
  rw [h, round2_intCast_div]

theorem round_mono : Monotone (round : ℚ → ℤ) := by
  intro a b h
  simp only [round_eq]
  exact Int.floor_le_floor (by linarith)

theorem round2_nonneg {q : ℚ} (h : 0 ≤ q) : 0 ≤ round2 q := by
  rw [round2, round2Int_eq_round]
  have h0 : round ((0 : ℚ)) ≤ round (q * 100) := round_mono (by nlinarith)
  rw [round_zero] at h0
  positivity

theorem round2_le_two {q : ℚ} (h : q ≤ 2) : round2 q ≤ 2 := by
  have h0 : round (q * 100) ≤ round ((200 : ℚ)) := round_mono (by nlinarith)
  have h200 : round ((200 : ℚ)) = 200 := by
    exact_mod_cast round_intCast (α := ℚ) 200
  rw [round2, round2Int_eq_round]
  rw [h200] at h0
  rw [div_le_iff₀ (by norm_num : (0 : ℚ) < 100)]
  exact_mod_cast le_trans (by exact_mod_cast h0) (by norm_num)

/-! ## Data model (`sf2_instance_t` and the engine interface) -/

/-- One catalog entry (`soundfont_entry_t`): full path and display name. -/
structure soundfont_entry_t where
  path : String
  name : String
deriving DecidableEq

/-- One preset entry (`preset_entry_t`). -/
structure preset_entry_t where
  name : String
  bank : Int
  program : Int
deriving DecidableEq

/-- Commands the plugin issues to the FluidLite engine, in order. -/
inductive EngineCmd where
  | sfunload (id : Int)
  | sfload (path : String)
  | noteOn (ch : Nat) (key : Int) (vel : Nat)
  | noteOff (ch : Nat) (key : Int)
  | cc (ch ctrl val : Nat)
  | pitchBend (ch : Nat) (bend : Nat)
  | channelPressure (ch : Nat) (val : Nat)
  | allNotesOff
  | programSelect (ch : Nat) (sfontId : Int) (bank program : Int)
  | setGain (g : ℚ)
deriving DecidableEq

/-- Engine reply to a load request: the id returned by
`fluid_synth_sfload` (negative = failure) and, on success, the preset
sequence `build_preset_list`'s iteration enumerates for the loaded bank
(names and bank/program numbers after the fallbacks of lines 219-236,
which depend only on engine callbacks). -/
structure LoadOutcome where
  sfontId : Int
  presets : List preset_entry_t

/-- External environment: the `soundfonts` directory listing as returned
by `opendir`/`readdir` (`none` = `opendir` failed) and the engine's reply
to each load request. -/
structure Env where
  listing : Option (List String)
  load : String → LoadOutcome

/-- Per-instance state (`sf2_instance_t`).  `preset_count` and
`soundfont_count` are the lengths of the two lists; the float audio
buffers and the engine handles carry no plugin-visible state and are
omitted. -/
structure sf2_instance_t where
  sfont_id : Int
  current_preset : Int
  octave_transpose : Int
  gain : ℚ
  soundfont_path : String
  soundfont_name : String
  preset_name : String
  soundfont_index : Int
  soundfonts : List soundfont_entry_t
  presets : List preset_entry_t
  module_dir : String
  load_error : String
deriving DecidableEq

def MAX_SOUNDFONTS : Nat := 64

def MAX_PRESETS : Nat := 1024

/-! ## Resource catalog (`scan_soundfonts`, `find_soundfont_by_name`) -/

/-- Filter of lines 156-158: skip hidden entries (leading dot) and keep
names whose extension matches `".sf2"` case-insensitively. -/
def scan_keep (nm : List Char) : Bool :=
  match nm with
  | '.' :: _ => false
  | _ =>
    match extOf nm with
    | some e => lowerL e = ".sf2".data
    | none => false

/-- The comparator `soundfont_entry_cmp` as a boolean `≤`:
`strcasecmp(a.name, b.name) ≤ 0`. -/
def caseLe (a b : soundfont_entry_t) : Bool :=
  lexLe (lowerL a.name.data) (lowerL b.name.data)

/-- Model of `scan_soundfonts` (lines 145-175): list `module_dir/soundfonts`,
filter, keep at most `MAX_SOUNDFONTS` entries in directory order, build
path/name pairs, sort case-insensitively by name.  (The C code calls
`qsort` only when more than one entry is present; sorting a shorter list
is the identity, so the model sorts unconditionally.) -/
def scan_soundfonts (module_dir : String) (listing : Option (List String)) :
    List soundfont_entry_t :=
  match listing with
  | none => []
  | some names =>
    let dir_path := module_dir ++ "/soundfonts"
    let kept := (names.filter (fun n => scan_keep n.data)).take MAX_SOUNDFONTS
    List.mergeSort (kept.map (fun n => ⟨dir_path ++ "/" ++ n, n⟩)) caseLe

/-- Model of `find_soundfont_by_name` (lines 136-143): index of the first
exact (case-sensitive) name match, `-1` if not found. -/
def find_soundfont_by_name (inst : sf2_instance_t) (nm : String) : Int :=
  match inst.soundfonts.findIdx? (fun e => e.name = nm) with
  | some i => (i : Int)
  | none => -1

/-! ## Bank loader and preset selection -/

/-- Model of `load_soundfont` (lines 245-299).  Returns the new state, the
engine command trace, and the C return value.  `build_preset_list` is
modelled by taking the engine-enumerated presets truncated at
`MAX_PRESETS`. -/
def load_soundfont (env : Env) (inst : sf2_instance_t) (path : String) :
    sf2_instance_t × List EngineCmd × Int :=
  let unload : List EngineCmd :=
    if 0 ≤ inst.sfont_id then [EngineCmd.sfunload inst.sfont_id] else []
  let res := env.load path
  let inst1 := { inst with sfont_id := res.sfontId, presets := [], current_preset := 0 }
  if res.sfontId < 0 then
    ({ inst1 with soundfont_name := "Load failed",
                  load_error := "SF2: failed to load soundfont" },
     unload ++ [EngineCmd.sfload path], -1)
  else
    let ps := res.presets.take MAX_PRESETS
    let inst2 := { inst1 with
      load_error := "",
      presets := ps,
      soundfont_name := basename path,
      soundfont_path := path }
    match ps with
    | [] => (inst2, unload ++ [EngineCmd.sfload path], 0)
    | p0 :: _ =>
      ({ inst2 with preset_name := p0.name },
       unload ++ [EngineCmd.sfload path,
                  EngineCmd.programSelect 0 res.sfontId p0.bank p0.program], 0)

/-- The two-sided wrap of lines 304-305 and 314-315: any negative index
becomes `len - 1`, any index `≥ len` becomes `0`. -/
def wrapIdx (len : Nat) (i : Int) : Int :=
  if i < 0 then (len : Int) - 1
  else if (len : Int) ≤ i then 0
  else i

/-- Model of `set_soundfont_index` (lines 301-309). -/
def set_soundfont_index (env : Env) (inst : sf2_instance_t) (index : Int) :
    sf2_instance_t × List EngineCmd :=
  if inst.soundfonts.length = 0 then (inst, [])
  else
    let w := wrapIdx inst.soundfonts.length index
    let inst1 := { inst with soundfont_index := w }
    let e := inst1.soundfonts.getD w.toNat ⟨"", ""⟩
    ((load_soundfont env inst1 e.path).1, (load_soundfont env inst1 e.path).2.1)

/-- Model of `select_preset` (lines 311-333): wrap the index, send
all-notes-off first iff the wrapped index differs from the active one,
then record the preset and issue the program select. -/
def select_preset (inst : sf2_instance_t) (index : Int) :
    sf2_instance_t × List EngineCmd :=
  if inst.presets.length = 0 then (inst, [])
  else
    let w := wrapIdx inst.presets.length index
    let p := inst.presets.getD w.toNat ⟨"", 0, 0⟩
    ({ inst with current_preset := w, preset_name := p.name },
     (if inst.current_preset ≠ w then [EngineCmd.allNotesOff] else []) ++
       [EngineCmd.programSelect 0 inst.sfont_id p.bank p.program])

/-! ## Event translator (`v2_on_midi`) -/

/-- Clamp a transposed key number to `[0, 127]` (lines 473-474). -/
def clampNote (n : Int) : Int :=
  if n < 0 then 0 else if 127 < n then 127 else n

set_option linter.unusedVariables false in
/-- Model of `v2_on_midi` (lines 459-510).  `msg` is the raw byte list,
`source` is ignored by the code (line 462). -/
def v2_on_midi (inst : sf2_instance_t) (msg : List Nat) (source : Int) :
    sf2_instance_t × List EngineCmd :=
  if msg.length < 2 then (inst, [])
  else
    let b0 := msg.getD 0 0
    let status := b0 &&& 0xF0
    let channel := b0 &&& 0x0F
    let data1 := msg.getD 1 0
    let data2 := if 2 < msg.length then msg.getD 2 0 else 0
    let note : Int :=
      if status = 0x90 ∨ status = 0x80 then
        clampNote ((data1 : Int) + inst.octave_transpose * 12)
      else (data1 : Int)
    if status = 0x90 then
      if 0 < data2 then (inst, [EngineCmd.noteOn channel note data2])
      else (inst, [EngineCmd.noteOff channel note])
    else if status = 0x80 then (inst, [EngineCmd.noteOff channel note])
    else if status = 0xB0 then
      if data1 = 123 then (inst, [EngineCmd.allNotesOff])
      else (inst, [EngineCmd.cc channel data1 data2])
    else if status = 0xE0 then
      (inst, [EngineCmd.pitchBend channel ((data2 <<< 7) ||| data1)])
    else if status = 0xC0 then
      if (data1 : Int) < (inst.presets.length : Int) then select_preset inst (data1 : Int)
      else (inst, [])
    else if status = 0xD0 then
      (inst, [EngineCmd.channelPressure channel data1])
    else (inst, [])

/-! ## Parameter surface -/

/-- Clamp of `octave_transpose` to `[-4, 4]` (lines 539-540 and 575-576). -/
def clampT (i : Int) : Int :=
  if i < -4 then -4 else if 4 < i then 4 else i

/-- Clamp of `gain` to `[0, 2]` (lines 543-544 and 580-581). -/
def clampG (q : ℚ) : ℚ :=
  if q < 0 then 0 else if 2 < q then 2 else q

/-- The five fields carried by the `state` parameter's JSON blob
(lines 652-654); integers travel exactly (`%d` printed, `atof`-parsed),
the gain travels at `"%.2f"` precision. -/
structure StateBlob where
  soundfont_name : String
  soundfont_index : Int
  preset : Int
  octave_transpose : Int
  gain : ℚ
deriving DecidableEq

/-- Model of `get_param("state")` (lines 646-655): the soundfont name is
emitted only when the index is in range of the (possibly stale) catalog,
otherwise the empty string; the numeric index is always emitted. -/
def get_state (inst : sf2_instance_t) : StateBlob :=
  let nm :=
    if 0 < inst.soundfonts.length ∧ inst.soundfont_index < (inst.soundfonts.length : Int)
    then (inst.soundfonts.getD inst.soundfont_index.toNat ⟨"", ""⟩).name
    else ""
  ⟨nm, inst.soundfont_index, inst.current_preset, inst.octave_transpose, round2 inst.gain⟩

/-- Blob-level specification of `set_param("state", ·)` (lines 552-586):
restore the soundfont by name (skipped when the transported name is
empty, matching `json_get_string(...) > 0`), falling back to the index
when it is in range; then the preset; then transpose and gain, clamped.
The string-level model `set_state_str` (the code as written, with its
`strstr`-based extraction) coincides with this whenever the five fields
parse back from the transported string (`set_state_str_eq`). -/
def set_state (env : Env) (inst : sf2_instance_t) (b : StateBlob) :
    sf2_instance_t × List EngineCmd :=
  let sfIdx0 : Int :=
    if b.soundfont_name ≠ "" then find_soundfont_by_name inst b.soundfont_name else -1
  let sfIdx : Int :=
    if sfIdx0 < 0 ∧ 0 ≤ b.soundfont_index ∧
        b.soundfont_index < (inst.soundfonts.length : Int)
    then b.soundfont_index else sfIdx0
  let r1 := if 0 ≤ sfIdx then set_soundfont_index env inst sfIdx else (inst, [])
  let r2 := select_preset r1.1 b.preset
  let t := clampT b.octave_transpose
  let g := clampG b.gain
  ({ r2.1 with octave_transpose := t, gain := g },
   r1.2 ++ r2.2 ++ [EngineCmd.setGain g])

/-- JSON rendering of a state blob (the `snprintf` of lines 652-654). -/
def stateJson (b : StateBlob) : String :=
  "\x7b\"soundfont_name\":\"" ++ b.soundfont_name ++ "\",\"soundfont_index\":" ++
    toString b.soundfont_index ++ ",\"preset\":" ++ toString b.preset ++
    ",\"octave_transpose\":" ++ toString b.octave_transpose ++ ",\"gain\":" ++
    format2 b.gain ++ "\x7d"

/-- Model of `json_get_number` (lines 100-109): find `"key":` with
`strstr`, skip spaces, parse with `atof`; `none` models the `-1`
not-found return. -/
def json_get_number (json key : String) : Option ℚ :=
  let search := ("\"" ++ key ++ "\":").data
  match strstrSuffix search json.data with
  | none => none
  | some suffix =>
    some (atofQ (String.mk ((suffix.drop search.length).dropWhile (fun c => c = ' '))))

/-- Model of `json_get_string` (lines 112-125): find `"key":"` with
`strstr`, then take characters up to the next `'"'`; `none` models the
`-1` not-found returns.  (The 127-byte output truncation is part of the
unmodelled buffer bounds.) -/
def json_get_string (json key : String) : Option String :=
  let search := ("\"" ++ key ++ "\":\"").data
  match strstrSuffix search json.data with
  | none => none
  | some suffix =>
    let rest := suffix.drop search.length
    if '"' ∈ rest then some (String.mk (rest.takeWhile (fun c => c ≠ '"')))
    else none

/-- First block of the `"state"` branch (lines 556-569): resolve the
soundfont by transported name when its parse is non-empty, fall back to
the transported index when in range, and reload when resolved. -/
def state_restore_sf (env : Env) (inst : sf2_instance_t) (val : String) :
    sf2_instance_t × List EngineCmd :=
  let sfIdx0 : Int :=
    match json_get_string val ("soundfont_name") with
    | some nm => if nm ≠ "" then find_soundfont_by_name inst nm else -1
    | none => -1
  let sfIdx : Int :=
    match json_get_number val ("soundfont_index") with
    | some f =>
      if sfIdx0 < 0 ∧ 0 ≤ truncQ f ∧ truncQ f < (inst.soundfonts.length : Int)
      then truncQ f else sfIdx0
    | none => sfIdx0
  if 0 ≤ sfIdx then set_soundfont_index env inst sfIdx else (inst, [])

/-- Second block (lines 570-572): restore the preset when transported. -/
def state_restore_preset (inst : sf2_instance_t) (val : String) :
    sf2_instance_t × List EngineCmd :=
  match json_get_number val ("preset") with
  | some f => select_preset inst (truncQ f)
  | none => (inst, [])

/-- Third block (lines 573-577): restore the transpose, clamped. -/
def state_restore_transpose (inst : sf2_instance_t) (val : String) : sf2_instance_t :=
  match json_get_number val ("octave_transpose") with
  | some f => { inst with octave_transpose := clampT (truncQ f) }
  | none => inst

/-- Fourth block (lines 578-585): restore the gain, clamped, and push it
to the engine. -/
def state_restore_gain (inst : sf2_instance_t) (val : String) :
    sf2_instance_t × List EngineCmd :=
  match json_get_number val ("gain") with
  | some f => ({ inst with gain := clampG f }, [EngineCmd.setGain (clampG f)])
  | none => (inst, [])

/-- The `"state"` branch of `v2_set_param` as written (lines 552-586):
the four blocks run in order on the raw JSON string. -/
def set_state_str (env : Env) (inst : sf2_instance_t) (val : String) :
    sf2_instance_t × List EngineCmd :=
  let r1 := state_restore_sf env inst val
  let r2 := state_restore_preset r1.1 val
  let i3 := state_restore_transpose r2.1 val
  let r4 := state_restore_gain i3 val
  (r4.1, r1.2 ++ r2.2 ++ r4.2)

/-- JSON rendering of the catalog listing (lines 634-643; the
`buf_len - 50` output-capacity guard is not modelled). -/
def sfListJson (l : List soundfont_entry_t) : String :=
  "[" ++ String.intercalate (",")
    (l.enum.map (fun p =>
      "\x7b\"label\":\"" ++ p.2.name ++ "\",\"index\":" ++ toString p.1 ++ "\x7d")) ++ "]"

/-- The static descriptor returned for `ui_hierarchy` (lines 658-683). -/
def uiHierarchyJson : String :=
  "\x7b\"modes\":null,\"levels\":\x7b\"root\":\x7b\"label\":\"SF2\"," ++
  "\"list_param\":\"preset\",\"count_param\":\"preset_count\"," ++
  "\"name_param\":\"preset_name\",\"children\":null," ++
  "\"knobs\":[\"octave_transpose\",\"gain\"],\"params\":[" ++
  "\x7b\"key\":\"octave_transpose\",\"label\":\"Octave\"\x7d," ++
  "\x7b\"key\":\"gain\",\"label\":\"Gain\"\x7d," ++
  "\x7b\"level\":\"soundfont\",\"label\":\"Choose Soundfont\"\x7d]\x7d," ++
  "\"soundfont\":\x7b\"label\":\"Soundfont\",\"items_param\":\"soundfont_list\"," ++
  "\"select_param\":\"soundfont_index\",\"children\":null,\"knobs\":[]," ++
  "\"params\":[]\x7d\x7d\x7d"

/-- Model of `v2_set_param` (lines 512-587). -/
def v2_set_param (env : Env) (inst : sf2_instance_t) (key val : String) :
    sf2_instance_t × List EngineCmd :=
  match key with
  | "soundfont_path" =>
    let r := load_soundfont env inst val
    let i2 :=
      if 0 < r.1.soundfonts.length then
        match r.1.soundfonts.findIdx?
            (fun e => e.path = val ∨ e.name = basename val) with
        | some i => { r.1 with soundfont_index := (i : Int) }
        | none => r.1
      else r.1
    (i2, r.2.1)
  | "soundfont_index" => set_soundfont_index env inst (atoi val)
  | "next_soundfont" => set_soundfont_index env inst (inst.soundfont_index + 1)
  | "prev_soundfont" => set_soundfont_index env inst (inst.soundfont_index - 1)
  | "preset" => select_preset inst (atoi val)
  | "octave_transpose" => ({ inst with octave_transpose := clampT (atoi val) }, [])
  | "gain" =>
    let g := clampG (atofQ val)
    ({ inst with gain := g }, [EngineCmd.setGain g])
  | "all_notes_off" | "panic" => (inst, [EngineCmd.allNotesOff])
  | "state" => set_state_str env inst val
  | _ => (inst, [])

/-- Model of `v2_get_param` (lines 589-693).  Returns the possibly
mutated instance (the `soundfont_list` read rescans the directory,
lines 630-632) and the produced value (`none` models the `-1`
"not found" return). -/
def v2_get_param (env : Env) (inst : sf2_instance_t) (key : String) :
    sf2_instance_t × Option String :=
  match key with
  | "load_error" => (inst, some inst.load_error)
  | "soundfont_name" => (inst, some inst.soundfont_name)
  | "soundfont_path" => (inst, some inst.soundfont_path)
  | "soundfont_count" => (inst, some (toString inst.soundfonts.length))
  | "soundfont_index" => (inst, some (toString inst.soundfont_index))
  | "preset" | "current_patch" => (inst, some (toString inst.current_preset))
  | "preset_name" | "patch_name" | "name" => (inst, some inst.preset_name)
  | "preset_count" | "total_patches" => (inst, some (toString inst.presets.length))
  | "octave_transpose" => (inst, some (toString inst.octave_transpose))
  | "gain" => (inst, some (format2 inst.gain))
  | "bank_name" => (inst, some inst.soundfont_name)
  | "patch_in_bank" => (inst, some (toString (inst.current_preset + 1)))
  | "bank_count" => (inst, some (toString inst.soundfonts.length))
  | "soundfont_list" =>
    let i1 := { inst with soundfonts := scan_soundfonts inst.module_dir env.listing }
    (i1, some (sfListJson i1.soundfonts))
  | "state" => (inst, some (stateJson (get_state inst)))
  | "ui_hierarchy" => (inst, some uiHierarchyJson)
  | _ => (inst, none)

/-! ## Instance creation and default-soundfont resolution -/

/-- The default-resolution loop of `v2_create_instance` (lines 416-426):
index of the first catalog entry whose full path equals the default, or
whose name equals the default's basename; `0` when nothing matches. -/
def resolve_default_index (sfs : List soundfont_entry_t) (default_sf : String) : Nat :=
  match sfs.findIdx? (fun e => e.path = default_sf ∨ e.name = basename default_sf) with
  | some i => i
  | none => 0

/-- Resolution rule in the spec's words (spec §4.1 `resolve_default`):
prefer an exact path match, fall back to a filename match, fall back to
index 0.  Stated only for comparison against `resolve_default_index`. -/
def resolve_default_spec (sfs : List soundfont_entry_t) (default_sf : String) : Nat :=
  match sfs.findIdx? (fun e => e.path = default_sf) with
  | some i => i
  | none =>
    match sfs.findIdx? (fun e => e.name = basename default_sf) with
    | some i => i
    | none => 0

/-- Model of `v2_create_instance` (lines 337-438).  `default_sf` is the
`soundfont_path` string extracted from the JSON defaults (`""` when
absent, matching the `default_sf[0]` check); the FluidLite settings and
sample-rate setup carry no plugin-visible state and are omitted.  The
`calloc`/`new_fluid_synth` failure paths return `NULL` to the host and
create no instance, so they are not modelled. -/
def v2_create_instance (env : Env) (module_dir : String) (default_sf : String) :
    sf2_instance_t × List EngineCmd :=
  let base : sf2_instance_t := {
    sfont_id := -1, current_preset := 0, octave_transpose := 0, gain := 1,
    soundfont_path := "", soundfont_name := "No SF2 loaded", preset_name := "",
    soundfont_index := 0, soundfonts := scan_soundfonts module_dir env.listing,
    presets := [], module_dir := module_dir, load_error := "" }
  if 0 < base.soundfonts.length then
    let idx := if default_sf ≠ "" then resolve_default_index base.soundfonts default_sf else 0
    let inst1 := { base with soundfont_index := (idx : Int) }
    let r := load_soundfont env inst1 ((inst1.soundfonts.getD idx ⟨"", ""⟩).path)
    (r.1, r.2.1)
  else if default_sf ≠ "" then
    let r := load_soundfont env base default_sf
    (r.1, r.2.1)
  else
    let r := load_soundfont env base (module_dir ++ "/instrument.sf2")
    (r.1, r.2.1)

/-! ## Render stage (`v2_render_block`) -/

/-- Per-sample clip to `[-1, 1]` (lines 723-726). -/
def clip1 (q : ℚ) : ℚ :=
  if 1 < q then 1 else if q < -1 then -1 else q

/-- Model of the sample conversion loop of `v2_render_block`
(lines 719-730): the engine's float frames are clipped per channel and
scaled to the 16-bit range.  The engine call itself
(`fluid_synth_write_float`) is the external collaborator; its output
block is the argument. -/
def v2_render_block (engineOut : List (ℚ × ℚ)) : List (Int × Int) :=
  engineOut.map (fun fr => (truncQ (clip1 fr.1 * 32767), truncQ (clip1 fr.2 * 32767)))

/-! ## The external operation surface -/

/-- One host-visible operation on a live instance. -/
inductive PluginOp where
  | onMidi (msg : List Nat) (source : Int)
  | setParam (key val : String)
  | getParam (key : String)

/-- Apply one operation. -/
def applyOp (env : Env) (inst : sf2_instance_t) (op : PluginOp) :
    sf2_instance_t × List EngineCmd :=
  match op with
  | .onMidi msg source => v2_on_midi inst msg source
  | .setParam k v => v2_set_param env inst k v
  | .getParam k => ((v2_get_param env inst k).1, [])

/-- The observable values the state round-trip claim is about, as read
back through `get_param`: the loaded bank (name, path, index), the preset
index, the transpose, and the gain at its `"%.2f"` read-back precision. -/
structure Observables where
  soundfont_name : String
  soundfont_path : String
  soundfont_index : Int
  preset : Int
  octave_transpose : Int
  gain2 : ℚ
deriving DecidableEq

/-- Read the observables off an instance. -/
def obs (inst : sf2_instance_t) : Observables :=
  ⟨inst.soundfont_name, inst.soundfont_path, inst.soundfont_index,
   inst.current_preset, inst.octave_transpose, round2 inst.gain⟩

/-! ## Shared lemmas -/

theorem wrapIdx_bounds {len : Nat} (h : 0 < len) (i : Int) :
    0 ≤ wrapIdx len i ∧ wrapIdx len i < (len : Int) := by
  unfold wrapIdx
  split
  · omega
  · split <;> omega

theorem wrapIdx_id {len : Nat} {i : Int} (h0 : 0 ≤ i) (h1 : i < (len : Int)) :
    wrapIdx len i = i := by
  unfold wrapIdx
  split
  · omega
  · split <;> omega

theorem clampT_bounds (i : Int) : -4 ≤ clampT i ∧ clampT i ≤ 4 := by
  unfold clampT
  split
  · omega
  · split <;> omega

theorem clampT_id {i : Int} (h0 : -4 ≤ i) (h1 : i ≤ 4) : clampT i = i := by
  unfold clampT
  split
  · omega
  · split <;> omega

theorem clampG_bounds (q : ℚ) : 0 ≤ clampG q ∧ clampG q ≤ 2 := by
  unfold clampG
  split
  · norm_num
  · split
    · norm_num
    · constructor <;> linarith

theorem clampG_id {q : ℚ} (h0 : 0 ≤ q) (h1 : q ≤ 2) : clampG q = q := by
  unfold clampG
  split
  · linarith
  · split
    · linarith
    · rfl

theorem load_soundfont_scalars (env : Env) (inst : sf2_instance_t) (path : String) :
    (load_soundfont env inst path).1.gain = inst.gain ∧
    (load_soundfont env inst path).1.octave_transpose = inst.octave_transpose ∧
    (load_soundfont env inst path).1.soundfonts = inst.soundfonts ∧
    (load_soundfont env inst path).1.soundfont_index = inst.soundfont_index ∧
    (load_soundfont env inst path).1.module_dir = inst.module_dir ∧
    (load_soundfont env inst path).1.current_preset = 0 := by
  simp only [load_soundfont]
  split
  · simp
  · split <;> simp

theorem select_preset_scalars (inst : sf2_instance_t) (i : Int) :
    (select_preset inst i).1.gain = inst.gain ∧
    (select_preset inst i).1.octave_transpose = inst.octave_transpose ∧
    (select_preset inst i).1.soundfonts = inst.soundfonts ∧
    (select_preset inst i).1.soundfont_index = inst.soundfont_index ∧
    (select_preset inst i).1.soundfont_path = inst.soundfont_path ∧
    (select_preset inst i).1.soundfont_name = inst.soundfont_name ∧
    (select_preset inst i).1.presets = inst.presets ∧
    (select_preset inst i).1.module_dir = inst.module_dir := by
  simp only [select_preset]
  split <;> simp

theorem set_soundfont_index_scalars (env : Env) (inst : sf2_instance_t) (i : Int) :
    (set_soundfont_index env inst i).1.gain = inst.gain ∧
    (set_soundfont_index env inst i).1.octave_transpose = inst.octave_transpose ∧
    (set_soundfont_index env inst i).1.soundfonts = inst.soundfonts ∧
    (set_soundfont_index env inst i).1.module_dir = inst.module_dir := by
  simp only [set_soundfont_index]
  split
  · simp
  · have h := load_soundfont_scalars env
      { inst with soundfont_index := wrapIdx inst.soundfonts.length i }
      ((inst.soundfonts.getD (wrapIdx inst.soundfonts.length i).toNat ⟨"", ""⟩).path)
    simp only at h ⊢
    exact ⟨h.1, h.2.1, h.2.2.1, h.2.2.2.2.1⟩

theorem v2_get_param_fst (env : Env) (inst : sf2_instance_t) (k : String) :
    (v2_get_param env inst k).1 = inst ∨
    (v2_get_param env inst k).1 =
      { inst with soundfonts := scan_soundfonts inst.module_dir env.listing } := by
  unfold v2_get_param
  split
  all_goals first
    | (left; rfl)
    | (right; rfl)

/-! ## Invariant predicates -/

/-- The scalar-range invariant of claim C6. -/
def ScalarBounds (inst : sf2_instance_t) : Prop :=
  -4 ≤ inst.octave_transpose ∧ inst.octave_transpose ≤ 4 ∧
    0 ≤ inst.gain ∧ inst.gain ≤ 2

/-- The preset-index invariant of claim C9. -/
def PresetInv (inst : sf2_instance_t) : Prop :=
  0 ≤ inst.current_preset ∧
  (inst.presets.length = 0 → inst.current_preset = 0) ∧
  (0 < inst.presets.length → inst.current_preset < (inst.presets.length : Int))

instance (inst : sf2_instance_t) : Decidable (ScalarBounds inst) := by
  unfold ScalarBounds; infer_instance

instance (inst : sf2_instance_t) : Decidable (PresetInv inst) := by
  unfold PresetInv; infer_instance

theorem PresetInv_load (env : Env) (inst : sf2_instance_t) (path : String) :
    PresetInv (load_soundfont env inst path).1 := by
  have h := (load_soundfont_scalars env inst path).2.2.2.2.2
  refine ⟨by omega, fun _ => h, fun hl => ?_⟩
  rw [h]
  exact_mod_cast hl

theorem PresetInv_select {inst : sf2_instance_t} (h : PresetInv inst) (i : Int) :
    PresetInv (select_preset inst i).1 := by
  unfold select_preset
  split
  · exact h
  · rename_i hne
    have hlen : 0 < inst.presets.length := Nat.pos_of_ne_zero hne
    have hb := wrapIdx_bounds hlen i
    unfold PresetInv
    simp only
    exact ⟨hb.1, fun h0 => by omega, fun _ => hb.2⟩

theorem PresetInv_set_soundfont_index (env : Env) {inst : sf2_instance_t}
    (h : PresetInv inst) (i : Int) : PresetInv (set_soundfont_index env inst i).1 := by
  unfold set_soundfont_index
  split
  · exact h
  · exact PresetInv_load env _ _

theorem ScalarBounds_load (env : Env) {inst : sf2_instance_t} (h : ScalarBounds inst)
    (path : String) : ScalarBounds (load_soundfont env inst path).1 := by
  have hs := load_soundfont_scalars env inst path
  exact ⟨by rw [hs.2.1]; exact h.1, by rw [hs.2.1]; exact h.2.1,
    by rw [hs.1]; exact h.2.2.1, by rw [hs.1]; exact h.2.2.2⟩

theorem ScalarBounds_select {inst : sf2_instance_t} (h : ScalarBounds inst) (i : Int) :
    ScalarBounds (select_preset inst i).1 := by
  have hs := select_preset_scalars inst i
  exact ⟨by rw [hs.2.1]; exact h.1, by rw [hs.2.1]; exact h.2.1,
    by rw [hs.1]; exact h.2.2.1, by rw [hs.1]; exact h.2.2.2⟩

theorem ScalarBounds_set_soundfont_index (env : Env) {inst : sf2_instance_t}
    (h : ScalarBounds inst) (i : Int) :
    ScalarBounds (set_soundfont_index env inst i).1 := by
  have hs := set_soundfont_index_scalars env inst i
  exact ⟨by rw [hs.2.1]; exact h.1, by rw [hs.2.1]; exact h.2.1,
    by rw [hs.1]; exact h.2.2.1, by rw [hs.1]; exact h.2.2.2⟩

theorem ScalarBounds_state_restore_sf (env : Env) {inst : sf2_instance_t}
    (val : String) (h : ScalarBounds inst) :
    ScalarBounds (state_restore_sf env inst val).1 := by
  unfold state_restore_sf
  dsimp only
  split
  · exact ScalarBounds_set_soundfont_index env h _
  · exact h

theorem ScalarBounds_state_restore_preset {inst : sf2_instance_t}
    (val : String) (h : ScalarBounds inst) :
    ScalarBounds (state_restore_preset inst val).1 := by
  unfold state_restore_preset
  split
  · exact ScalarBounds_select h _
  · exact h

theorem ScalarBounds_state_restore_transpose {inst : sf2_instance_t}
    (val : String) (h : ScalarBounds inst) :
    ScalarBounds (state_restore_transpose inst val) := by
  unfold state_restore_transpose
  split
  · exact ⟨(clampT_bounds _).1, (clampT_bounds _).2, h.2.2.1, h.2.2.2⟩
  · exact h

theorem ScalarBounds_state_restore_gain {inst : sf2_instance_t}
    (val : String) (h : ScalarBounds inst) :
    ScalarBounds (state_restore_gain inst val).1 := by
  unfold state_restore_gain
  split
  · exact ⟨h.1, h.2.1, (clampG_bounds _).1, (clampG_bounds _).2⟩
  · exact h

theorem ScalarBounds_set_state_str (env : Env) {inst : sf2_instance_t}
    (val : String) (h : ScalarBounds inst) :
    ScalarBounds (set_state_str env inst val).1 :=
  ScalarBounds_state_restore_gain val
    (ScalarBounds_state_restore_transpose val
      (ScalarBounds_state_restore_preset val
        (ScalarBounds_state_restore_sf env val h)))

theorem PresetInv_state_restore_sf (env : Env) {inst : sf2_instance_t}
    (val : String) (h : PresetInv inst) :
    PresetInv (state_restore_sf env inst val).1 := by
  unfold state_restore_sf
  dsimp only
  split
  · exact PresetInv_set_soundfont_index env h _
  · exact h

theorem PresetInv_state_restore_preset {inst : sf2_instance_t}
    (val : String) (h : PresetInv inst) :
    PresetInv (state_restore_preset inst val).1 := by
  unfold state_restore_preset
  split
  · exact PresetInv_select h _
  · exact h

theorem PresetInv_state_restore_transpose {inst : sf2_instance_t}
    (val : String) (h : PresetInv inst) :
    PresetInv (state_restore_transpose inst val) := by
  unfold state_restore_transpose
  split
  · exact h
  · exact h

theorem PresetInv_state_restore_gain {inst : sf2_instance_t}
    (val : String) (h : PresetInv inst) :
    PresetInv (state_restore_gain inst val).1 := by
  unfold state_restore_gain
  split
  · exact h
  · exact h

theorem PresetInv_set_state_str (env : Env) {inst : sf2_instance_t}
    (val : String) (h : PresetInv inst) :
    PresetInv (set_state_str env inst val).1 :=
  PresetInv_state_restore_gain val
    (PresetInv_state_restore_transpose val
      (PresetInv_state_restore_preset val
        (PresetInv_state_restore_sf env val h)))

theorem ScalarBounds_set_param (env : Env) {inst : sf2_instance_t} (k v : String)
    (h : ScalarBounds inst) : ScalarBounds (v2_set_param env inst k v).1 := by
  unfold v2_set_param
  split
  · dsimp only
    split
    · split
      · exact ScalarBounds_load env h v
      · exact ScalarBounds_load env h v
    · exact ScalarBounds_load env h v
  · exact ScalarBounds_set_soundfont_index env h _
  · exact ScalarBounds_set_soundfont_index env h _
  · exact ScalarBounds_set_soundfont_index env h _
  · exact ScalarBounds_select h _
  · exact ⟨(clampT_bounds _).1, (clampT_bounds _).2, h.2.2.1, h.2.2.2⟩
  · exact ⟨h.1, h.2.1, (clampG_bounds _).1, (clampG_bounds _).2⟩
  · exact h
  · exact h
  · exact ScalarBounds_set_state_str env v h
  · exact h

theorem v2_on_midi_fst (inst : sf2_instance_t) (msg : List Nat) (src : Int) :
    (v2_on_midi inst msg src).1 = inst ∨
    ∃ d : Int, (v2_on_midi inst msg src).1 = (select_preset inst d).1 := by
  unfold v2_on_midi
  dsimp only
  repeat' split
  all_goals first
    | (left; rfl)
    | (right; exact ⟨_, rfl⟩)

theorem ScalarBounds_on_midi {inst : sf2_instance_t} (msg : List Nat) (src : Int)
    (h : ScalarBounds inst) : ScalarBounds (v2_on_midi inst msg src).1 := by
  rcases v2_on_midi_fst inst msg src with heq | ⟨d, heq⟩ <;> rw [heq]
  · exact h
  · exact ScalarBounds_select h d

theorem ScalarBounds_get_param (env : Env) {inst : sf2_instance_t} (k : String)
    (h : ScalarBounds inst) : ScalarBounds (v2_get_param env inst k).1 := by
  rcases v2_get_param_fst env inst k with heq | heq <;> rw [heq] <;> exact h

theorem PresetInv_set_param (env : Env) {inst : sf2_instance_t} (k v : String)
    (h : PresetInv inst) : PresetInv (v2_set_param env inst k v).1 := by
  unfold v2_set_param
  split
  · dsimp only
    split
    · split
      · exact PresetInv_load env _ _
      · exact PresetInv_load env _ _
    · exact PresetInv_load env _ _
  · exact PresetInv_set_soundfont_index env h _
  · exact PresetInv_set_soundfont_index env h _
  · exact PresetInv_set_soundfont_index env h _
  · exact PresetInv_select h _
  · exact h
  · exact h
  · exact h
  · exact h
  · exact PresetInv_set_state_str env v h
  · exact h

theorem PresetInv_on_midi {inst : sf2_instance_t} (msg : List Nat) (src : Int)
    (h : PresetInv inst) : PresetInv (v2_on_midi inst msg src).1 := by
  rcases v2_on_midi_fst inst msg src with heq | ⟨d, heq⟩ <;> rw [heq]
  · exact h
  · exact PresetInv_select h d

theorem PresetInv_get_param (env : Env) {inst : sf2_instance_t} (k : String)
    (h : PresetInv inst) : PresetInv (v2_get_param env inst k).1 := by
  rcases v2_get_param_fst env inst k with heq | heq <;> rw [heq] <;> exact h

theorem ScalarBounds_applyOp (env : Env) {inst : sf2_instance_t} (op : PluginOp)
    (h : ScalarBounds inst) : ScalarBounds (applyOp env inst op).1 := by
  cases op with
  | onMidi msg src => exact ScalarBounds_on_midi msg src h
  | setParam k v => exact ScalarBounds_set_param env k v h
  | getParam k => exact ScalarBounds_get_param env k h

theorem PresetInv_applyOp (env : Env) {inst : sf2_instance_t} (op : PluginOp)
    (h : PresetInv inst) : PresetInv (applyOp env inst op).1 := by
  cases op with
  | onMidi msg src => exact PresetInv_on_midi msg src h
  | setParam k v => exact PresetInv_set_param env k v h
  | getParam k => exact PresetInv_get_param env k h

/-! ## Helper lemmas for the claims -/

theorem set_soundfont_index_idx (env : Env) (inst : sf2_instance_t) (i : Int)
    (h : 0 < inst.soundfonts.length) :
    (set_soundfont_index env inst i).1.soundfont_index =
      wrapIdx inst.soundfonts.length i := by
  unfold set_soundfont_index
  rw [if_neg (by omega)]
  exact (load_soundfont_scalars env _ _).2.2.2.1

theorem load_cmds_sfload (env : Env) (inst : sf2_instance_t) (path : String) :
    EngineCmd.sfload path ∈ (load_soundfont env inst path).2.1 := by
  simp only [load_soundfont]
  split
  · simp
  · split <;> simp

theorem set_soundfont_index_cmds (env : Env) (inst : sf2_instance_t) (i : Int)
    (h : 0 < inst.soundfonts.length) :
    EngineCmd.sfload
        ((inst.soundfonts.getD (wrapIdx inst.soundfonts.length i).toNat ⟨"", ""⟩).path) ∈
      (set_soundfont_index env inst i).2 := by
  unfold set_soundfont_index
  rw [if_neg (by omega)]
  exact load_cmds_sfload env _ _

theorem select_preset_idx (inst : sf2_instance_t) (i : Int)
    (h : 0 < inst.presets.length) :
    (select_preset inst i).1.current_preset = wrapIdx inst.presets.length i := by
  unfold select_preset
  rw [if_neg (by omega)]

/-! ## Concrete fixtures used by witnesses and counterexamples -/

/-- A three-entry preset list. -/
def psL : List preset_entry_t := [⟨("Piano"), 0, 0⟩, ⟨("Organ"), 0, 1⟩, ⟨("Bass"), 0, 2⟩]

/-- A loaded catalog entry. -/
def entA : soundfont_entry_t := ⟨("m/soundfonts/a.sf2"), ("a.sf2")⟩

/-- A second catalog entry. -/
def entB : soundfont_entry_t := ⟨("m/soundfonts/b.sf2"), ("b.sf2")⟩

/-- An environment whose loads always succeed with `psL`. -/
def envD : Env := ⟨some [("a.sf2"), ("b.sf2")], fun _ => ⟨1, psL⟩⟩

/-- An environment whose loads always fail. -/
def envF : Env := ⟨none, fun _ => ⟨-1, []⟩⟩

/-- A healthy instance: catalog `[entA, entB]`, `entA` loaded with `psL`. -/
def instD : sf2_instance_t :=
  { sfont_id := 1, current_preset := 0, octave_transpose := 0, gain := 1,
    soundfont_path := ("m/soundfonts/a.sf2"), soundfont_name := ("a.sf2"),
    preset_name := ("Piano"), soundfont_index := 0, soundfonts := [entA, entB],
    presets := psL, module_dir := ("m"), load_error := "" }

/-! ## Claim C2 — index wrap rule -/

/-- C2 (amended): with a non-empty catalog, `set_soundfont_index` maps any
negative index to `count - 1` and any index `≥ count` to `0` (hence `-1 ↦
count-1` and `count ↦ 0`), keeps in-range indices, stays in `[0, count)`,
and loads the resolved path; with an empty catalog it is a no-op.
`select_preset` wraps by the same rule over a non-empty preset list. -/
theorem sf2_c2_index_wrap :
    (∀ (env : Env) (inst : sf2_instance_t) (i : Int), inst.soundfonts.length = 0 →
      set_soundfont_index env inst i = (inst, [])) ∧
    (∀ (env : Env) (inst : sf2_instance_t) (i : Int), 0 < inst.soundfonts.length →
      (0 ≤ (set_soundfont_index env inst i).1.soundfont_index ∧
        (set_soundfont_index env inst i).1.soundfont_index <
          (inst.soundfonts.length : Int)) ∧
      (i < 0 → (set_soundfont_index env inst i).1.soundfont_index =
        (inst.soundfonts.length : Int) - 1) ∧
      ((inst.soundfonts.length : Int) ≤ i →
        (set_soundfont_index env inst i).1.soundfont_index = 0) ∧
      (0 ≤ i → i < (inst.soundfonts.length : Int) →
        (set_soundfont_index env inst i).1.soundfont_index = i) ∧
      EngineCmd.sfload
          ((inst.soundfonts.getD
            (wrapIdx inst.soundfonts.length i).toNat ⟨"", ""⟩).path) ∈
        (set_soundfont_index env inst i).2) ∧
    (∀ (inst : sf2_instance_t) (i : Int), 0 < inst.presets.length →
      (0 ≤ (select_preset inst i).1.current_preset ∧
        (select_preset inst i).1.current_preset < (inst.presets.length : Int)) ∧
      (i < 0 → (select_preset inst i).1.current_preset =
        (inst.presets.length : Int) - 1) ∧
      ((inst.presets.length : Int) ≤ i →
        (select_preset inst i).1.current_preset = 0)) := by
  refine ⟨?_, ?_, ?_⟩
  · intro env inst i h
    unfold set_soundfont_index
    rw [if_pos h]
  · intro env inst i h
    rw [set_soundfont_index_idx env inst i h]
    refine ⟨wrapIdx_bounds h i, ?_, ?_, ?_, set_soundfont_index_cmds env inst i h⟩
    · intro hi; unfold wrapIdx; rw [if_pos hi]
    · intro hi; unfold wrapIdx; rw [if_neg (by omega), if_pos hi]
    · intro h0 h1; exact wrapIdx_id h0 h1
  · intro inst i h
    rw [select_preset_idx inst i h]
    refine ⟨wrapIdx_bounds h i, ?_, ?_⟩
    · intro hi; unfold wrapIdx; rw [if_pos hi]
    · intro hi; unfold wrapIdx; rw [if_neg (by omega), if_pos hi]

/-- Witness for C2: a catalog of two entries; `-1` selects index `1`,
`2` selects index `0`. -/
theorem sf2_c2_witness :
    0 < instD.soundfonts.length ∧
    (set_soundfont_index envD instD (-1)).1.soundfont_index = 1 ∧
    (set_soundfont_index envD instD 2).1.soundfont_index = 0 :=
  ⟨by decide,
    by
      have h := (sf2_c2_index_wrap.2.1 envD instD (-1) (by decide)).2.1 (by decide)
      simpa using h,
    by
      have h := (sf2_c2_index_wrap.2.1 envD instD 2 (by decide)).2.2.1 (by decide)
      simpa using h⟩

/-- Counterexample for C2 as frozen: the claim's formula
`((i mod N) + N) mod N` gives `0` at `i = -2`, `N = 2`, but the code
selects index `1` (`count - 1`). -/
theorem sf2_c2_counterexample :
    (set_soundfont_index envD instD (-2)).1.soundfont_index = 1 ∧
    ((-2 : Int) % 2 + 2) % 2 = 0 := by
  constructor
  · decide
  · decide

/-! ## Claim C4 — all-notes-off before a differing preset change -/

/-- C4: for a non-empty preset list, `select_preset` emits
`[allNotesOff, programSelect …]` exactly when the wrapped target differs
from the active preset and `[programSelect …]` alone exactly when it is
the same; the `preset` parameter and an in-range program-change event
delegate to `select_preset` unchanged (the state-restore path calls
`select_preset` by definition of `state_restore_preset`). -/
theorem sf2_c4_all_notes_off_iff (inst : sf2_instance_t) (i : Int)
    (h : 0 < inst.presets.length) :
    ((select_preset inst i).2 =
        [EngineCmd.allNotesOff,
          EngineCmd.programSelect 0 inst.sfont_id
            ((inst.presets.getD (wrapIdx inst.presets.length i).toNat ⟨"", 0, 0⟩).bank)
            ((inst.presets.getD (wrapIdx inst.presets.length i).toNat ⟨"", 0, 0⟩).program)] ↔
      inst.current_preset ≠ wrapIdx inst.presets.length i) ∧
    ((select_preset inst i).2 =
        [EngineCmd.programSelect 0 inst.sfont_id
            ((inst.presets.getD (wrapIdx inst.presets.length i).toNat ⟨"", 0, 0⟩).bank)
            ((inst.presets.getD (wrapIdx inst.presets.length i).toNat ⟨"", 0, 0⟩).program)] ↔
      inst.current_preset = wrapIdx inst.presets.length i) ∧
    (∀ (env : Env) (v : String),
      v2_set_param env inst ("preset") v = select_preset inst (atoi v)) ∧
    (∀ (s : Int) (b0 d : Nat), b0 &&& 0xF0 = 0xC0 →
      (d : Int) < (inst.presets.length : Int) →
      v2_on_midi inst [b0, d] s = select_preset inst (d : Int)) := by
  refine ⟨?_, ?_, ?_, ?_⟩
  · unfold select_preset
    rw [if_neg (by omega)]
    by_cases hd : inst.current_preset = wrapIdx inst.presets.length i
    · simp [hd]
    · simp [hd]
  · unfold select_preset
    rw [if_neg (by omega)]
    by_cases hd : inst.current_preset = wrapIdx inst.presets.length i
    · simp [hd]
    · simp [hd]
  · intro env v
    rfl
  · intro s b0 d hb hd
    unfold v2_on_midi
    rw [if_neg (by simp)]
    simp only [List.getD, List.length_cons, List.length_nil]
    rw [show [b0, d].get? 0 = some b0 from rfl, show [b0, d].get? 1 = some d from rfl]
    simp only [Option.getD_some, hb]
    norm_num
    intro h2
    exfalso
    omega

/-- Witness for C4: on `instD` (active preset 0), selecting preset 1
emits all-notes-off then the program select; re-selecting preset 0 emits
the program select alone. -/
theorem sf2_c4_witness :
    0 < instD.presets.length ∧
    (select_preset instD 1).2 =
      [EngineCmd.allNotesOff, EngineCmd.programSelect 0 1 0 1] ∧
    (select_preset instD 0).2 = [EngineCmd.programSelect 0 1 0 0] :=
  ⟨by decide,
    ((sf2_c4_all_notes_off_iff instD 1 (by decide)).1).mpr (by decide),
    ((sf2_c4_all_notes_off_iff instD 0 (by decide)).2.1).mpr (by decide)⟩

/-! ## Claim C5 — load postconditions and silent render -/

/-- C5: a failed load sets the documented error string (non-empty), the
`"Load failed"` sentinel name, an empty preset list with preset index 0,
and returns `-1`; a successful load clears the error, sets the display
name to the path's basename, and selects and applies preset 0 whenever
the rebuilt preset list is non-empty.  The render stage maps a silent
engine block to exactly-zero output frames (with no bank loaded the
engine has no voices, so its block is silent and the instance keeps
answering `render` without crashing). -/
theorem sf2_c5_load_postconditions (env : Env) (inst : sf2_instance_t) (path : String) :
    ((env.load path).sfontId < 0 →
      (load_soundfont env inst path).1.load_error = ("SF2: failed to load soundfont") ∧
      (load_soundfont env inst path).1.load_error ≠ "" ∧
      (load_soundfont env inst path).1.presets = [] ∧
      (load_soundfont env inst path).1.current_preset = 0 ∧
      (load_soundfont env inst path).1.soundfont_name = ("Load failed") ∧
      (load_soundfont env inst path).2.2 = -1) ∧
    (0 ≤ (env.load path).sfontId →
      (load_soundfont env inst path).1.load_error = "" ∧
      (load_soundfont env inst path).1.soundfont_name = basename path ∧
      ((load_soundfont env inst path).1.presets ≠ [] →
        (load_soundfont env inst path).1.current_preset = 0 ∧
        (load_soundfont env inst path).1.preset_name =
          ((load_soundfont env inst path).1.presets.getD 0 ⟨"", 0, 0⟩).name ∧
        EngineCmd.programSelect 0 (env.load path).sfontId
            (((load_soundfont env inst path).1.presets.getD 0 ⟨"", 0, 0⟩).bank)
            (((load_soundfont env inst path).1.presets.getD 0 ⟨"", 0, 0⟩).program) ∈
          (load_soundfont env inst path).2.1)) ∧
    (∀ n : Nat, v2_render_block (List.replicate n (0, 0)) = List.replicate n (0, 0)) := by
  refine ⟨?_, ?_, ?_⟩
  · intro hfail
    simp only [load_soundfont]
    rw [if_pos hfail]
    refine ⟨rfl, ?_, rfl, rfl, rfl, rfl⟩
    show ("SF2: failed to load soundfont" : String) ≠ ""
    decide
  · intro hok
    simp only [load_soundfont]
    rw [if_neg (by omega)]
    split
    · rename_i heq
      exact ⟨rfl, rfl, fun hne => absurd heq hne⟩
    · rename_i p0 tl heq
      refine ⟨rfl, rfl, fun _ => ⟨rfl, ?_, ?_⟩⟩
      · simp only [heq]
        rfl
      · simp only [heq]
        simp [List.getD]
  · intro n
    unfold v2_render_block
    rw [List.map_replicate]
    congr 1
    with_unfolding_all decide

/-- Witness for C5: a failing environment and a succeeding one. -/
theorem sf2_c5_witness :
    (envF.load ("x")).sfontId < 0 ∧
    (load_soundfont envF instD ("x")).1.presets = [] ∧
    (load_soundfont envF instD ("x")).1.load_error ≠ "" ∧
    0 ≤ (envD.load entA.path).sfontId ∧
    (load_soundfont envD instD entA.path).1.load_error = "" :=
  ⟨by decide,
    ((sf2_c5_load_postconditions envF instD ("x")).1 (by decide)).2.2.1,
    ((sf2_c5_load_postconditions envF instD ("x")).1 (by decide)).2.1,
    by decide,
    ((sf2_c5_load_postconditions envD instD entA.path).2.1 (by decide)).1⟩

/-! ## Claim C6 — clamp invariant for transpose and gain -/

/-- C6: every operation preserves `octave_transpose ∈ [-4, 4]` and
`gain ∈ [0, 2]`; setting gain to `"5.0"` reads back as `"2.00"` and
setting transpose to `"99"` reads back as `"4"` on any instance. -/
theorem sf2_c6_clamped_scalars :
    (∀ (env : Env) (inst : sf2_instance_t) (op : PluginOp),
      ScalarBounds inst → ScalarBounds (applyOp env inst op).1) ∧
    (∀ (env : Env) (inst : sf2_instance_t),
      (v2_get_param env (v2_set_param env inst ("gain") ("5.0")).1 ("gain")).2 =
        some ("2.00")) ∧
    (∀ (env : Env) (inst : sf2_instance_t),
      (v2_get_param env
        (v2_set_param env inst ("octave_transpose") ("99")).1 ("octave_transpose")).2 =
        some ("4")) := by
  refine ⟨fun env inst op h => ScalarBounds_applyOp env op h,
    fun env inst => ?_, fun env inst => ?_⟩
  · have h1 : atofQ ("5.0") = 5 := by with_unfolding_all decide
    have h2 : clampG 5 = 2 := by norm_num [clampG]
    have h3 : round2Int 2 = 200 := by
      rw [round2Int_eq_round, show (2 : ℚ) * 100 = 200 by norm_num]
      exact_mod_cast round_intCast (α := ℚ) 200
    have h4 : format2 2 = "2.00" := by
      simp only [format2]
      rw [h3]
      decide
    simp only [v2_set_param, v2_get_param]
    rw [h1, h2, h4]
  · have h1 : atoi ("99") = 99 := by decide
    have h2 : clampT 99 = 4 := by decide
    simp only [v2_set_param, v2_get_param]
    rw [h1, h2]
    decide

/-- Witness for C6: the invariant applied on `instD`. -/
theorem sf2_c6_witness :
    ScalarBounds instD ∧
    ScalarBounds (applyOp envD instD (PluginOp.setParam ("gain") ("-3.7"))).1 :=
  ⟨by decide, sf2_c6_clamped_scalars.1 envD instD _ (by decide)⟩

/-! ## Claim C9 — preset-index invariant -/

/-- C9: every operation preserves the preset-index invariant (index
nonnegative, below the count when presets exist, zero when none); every
load resets the preset index to 0; a program-change event whose value is
not below the preset count is ignored entirely. -/
theorem sf2_c9_preset_invariant :
    (∀ (env : Env) (inst : sf2_instance_t) (op : PluginOp),
      PresetInv inst → PresetInv (applyOp env inst op).1) ∧
    (∀ (env : Env) (inst : sf2_instance_t) (path : String),
      (load_soundfont env inst path).1.current_preset = 0) ∧
    (∀ (inst : sf2_instance_t) (s : Int) (b0 d : Nat), b0 &&& 0xF0 = 0xC0 →
      ¬ ((d : Int) < (inst.presets.length : Int)) →
      v2_on_midi inst [b0, d] s = (inst, [])) := by
  refine ⟨fun env inst op h => PresetInv_applyOp env op h,
    fun env inst path => (load_soundfont_scalars env inst path).2.2.2.2.2, ?_⟩
  intro inst s b0 d hb hd
  unfold v2_on_midi
  rw [if_neg (by simp)]
  simp only [List.getD]
  rw [show [b0, d].get? 0 = some b0 from rfl, show [b0, d].get? 1 = some d from rfl]
  simp only [Option.getD_some, hb]
  norm_num
  intro h2
  exact absurd (show (d : Int) < (inst.presets.length : Int) by exact_mod_cast h2) hd

/-- Witness for C9: invariant preservation and an out-of-range program
change on `instD` (3 presets, program value 9). -/
theorem sf2_c9_witness :
    PresetInv instD ∧
    PresetInv (applyOp envD instD (PluginOp.setParam ("preset") ("7"))).1 ∧
    v2_on_midi instD [0xC0, 9] 0 = (instD, []) :=
  ⟨by decide, sf2_c9_preset_invariant.1 envD instD _ (by decide),
    sf2_c9_preset_invariant.2.2 instD 0 0xC0 9 (by decide) (by decide)⟩

/-! ## Claim C10 — stale-index tolerance -/

/-- C10: reading `soundfont_list` rescans the directory, replacing only
the catalog (index, loaded bank, presets and all other fields are
untouched, so the stored index may fall outside the new catalog's
range); the `state` read emits an empty `soundfont_name` whenever the
index is not within the catalog, while always reporting the numeric
index. -/
theorem sf2_c10_stale_index :
    (∀ (env : Env) (inst : sf2_instance_t),
      (v2_get_param env inst ("soundfont_list")).1 =
        { inst with soundfonts := scan_soundfonts inst.module_dir env.listing }) ∧
    (∀ inst : sf2_instance_t,
      ¬ (0 < inst.soundfonts.length ∧
          inst.soundfont_index < (inst.soundfonts.length : Int)) →
      (get_state inst).soundfont_name = "") ∧
    (∀ inst : sf2_instance_t, (get_state inst).soundfont_index = inst.soundfont_index) := by
  refine ⟨fun env inst => rfl, ?_, fun inst => rfl⟩
  intro inst h
  unfold get_state
  dsimp only
  rw [if_neg h]

/-- An instance whose catalog shrank to empty under a stale index. -/
def instStale : sf2_instance_t := { instD with soundfonts := [], soundfont_index := 2 }

/-- Witness for C10: the stale instance reports an empty name but still
the numeric index 2. -/
theorem sf2_c10_witness :
    ¬ (0 < instStale.soundfonts.length ∧
        instStale.soundfont_index < (instStale.soundfonts.length : Int)) ∧
    (get_state instStale).soundfont_name = "" ∧
    (get_state instStale).soundfont_index = 2 :=
  ⟨by decide, sf2_c10_stale_index.2.1 instStale (by decide), by decide⟩

/-! ## Claim C7 — transpose scope -/

/-- C7: transpose shifts only Note On/Off key numbers (clamped to
`[0, 127]`); Control Change, Pitch Bend, Program Change, and Channel
Pressure pass their data bytes unshifted; messages shorter than 2 bytes
are ignored with no engine command and no state change. -/
theorem sf2_c7_transpose_scope (inst : sf2_instance_t) (msg : List Nat) (s : Int) :
    (msg.length < 2 → v2_on_midi inst msg s = (inst, [])) ∧
    (2 ≤ msg.length →
      ((msg.getD 0 0 &&& 0xF0) = 0xB0 → msg.getD 1 0 = 123 →
        v2_on_midi inst msg s = (inst, [EngineCmd.allNotesOff])) ∧
      ((msg.getD 0 0 &&& 0xF0) = 0xB0 → msg.getD 1 0 ≠ 123 →
        v2_on_midi inst msg s =
          (inst, [EngineCmd.cc (msg.getD 0 0 &&& 0x0F) (msg.getD 1 0)
            (if 2 < msg.length then msg.getD 2 0 else 0)])) ∧
      ((msg.getD 0 0 &&& 0xF0) = 0xE0 →
        v2_on_midi inst msg s =
          (inst, [EngineCmd.pitchBend (msg.getD 0 0 &&& 0x0F)
            (((if 2 < msg.length then msg.getD 2 0 else 0) <<< 7) ||| msg.getD 1 0)])) ∧
      ((msg.getD 0 0 &&& 0xF0) = 0xD0 →
        v2_on_midi inst msg s =
          (inst, [EngineCmd.channelPressure (msg.getD 0 0 &&& 0x0F) (msg.getD 1 0)])) ∧
      ((msg.getD 0 0 &&& 0xF0) = 0xC0 →
        v2_on_midi inst msg s =
          (if ((msg.getD 1 0 : Nat) : Int) < (inst.presets.length : Int)
            then select_preset inst ((msg.getD 1 0 : Nat) : Int) else (inst, []))) ∧
      ((msg.getD 0 0 &&& 0xF0) = 0x90 → 0 < (if 2 < msg.length then msg.getD 2 0 else 0) →
        v2_on_midi inst msg s =
          (inst, [EngineCmd.noteOn (msg.getD 0 0 &&& 0x0F)
            (clampNote (((msg.getD 1 0 : Nat) : Int) + inst.octave_transpose * 12))
            (if 2 < msg.length then msg.getD 2 0 else 0)])) ∧
      ((msg.getD 0 0 &&& 0xF0) = 0x90 → (if 2 < msg.length then msg.getD 2 0 else 0) = 0 →
        v2_on_midi inst msg s =
          (inst, [EngineCmd.noteOff (msg.getD 0 0 &&& 0x0F)
            (clampNote (((msg.getD 1 0 : Nat) : Int) + inst.octave_transpose * 12))])) ∧
      ((msg.getD 0 0 &&& 0xF0) = 0x80 →
        v2_on_midi inst msg s =
          (inst, [EngineCmd.noteOff (msg.getD 0 0 &&& 0x0F)
            (clampNote (((msg.getD 1 0 : Nat) : Int) + inst.octave_transpose * 12))]))) := by
  constructor
  · intro h
    unfold v2_on_midi
    rw [if_pos h]
  · intro hlen
    refine ⟨?_, ?_, ?_, ?_, ?_, ?_, ?_, ?_⟩
    · intro hs hd
      unfold v2_on_midi
      rw [if_neg (by omega)]
      simp only [List.getD, List.get?_eq_getElem?] at hs hd ⊢
      simp [hs, hd]
    · intro hs hd
      unfold v2_on_midi
      rw [if_neg (by omega)]
      simp only [List.getD, List.get?_eq_getElem?] at hs hd ⊢
      simp [hs, hd]
    · intro hs
      unfold v2_on_midi
      rw [if_neg (by omega)]
      simp only [List.getD, List.get?_eq_getElem?] at hs ⊢
      simp [hs]
    · intro hs
      unfold v2_on_midi
      rw [if_neg (by omega)]
      simp only [List.getD, List.get?_eq_getElem?] at hs ⊢
      simp [hs]
    · intro hs
      unfold v2_on_midi
      rw [if_neg (by omega)]
      simp only [List.getD, List.get?_eq_getElem?] at hs ⊢
      simp [hs]
    · intro hs hd
      unfold v2_on_midi
      rw [if_neg (by omega)]
      simp only [List.getD, List.get?_eq_getElem?] at hs hd ⊢
      simp [hs, hd]
    · intro hs hd
      unfold v2_on_midi
      rw [if_neg (by omega)]
      simp only [List.getD, List.get?_eq_getElem?] at hs hd ⊢
      simp [hs, hd]
    · intro hs
      unfold v2_on_midi
      rw [if_neg (by omega)]
      simp only [List.getD, List.get?_eq_getElem?] at hs ⊢
      simp [hs]

/-- Witness for C7: a Control Change on channel 5 passes its bytes
through unshifted on an instance with transpose 2, a 1-byte message is
ignored, and a Note On is transposed by 24 semitones. -/
theorem sf2_c7_witness :
    2 ≤ ([0xB5, 10, 99] : List Nat).length ∧
    v2_on_midi { instD with octave_transpose := 2 } [0xB5, 10, 99] 0 =
      ({ instD with octave_transpose := 2 }, [EngineCmd.cc 5 10 99]) ∧
    v2_on_midi { instD with octave_transpose := 2 } [0x95] 0 =
      ({ instD with octave_transpose := 2 }, []) ∧
    v2_on_midi { instD with octave_transpose := 2 } [0x95, 60, 100] 0 =
      ({ instD with octave_transpose := 2 }, [EngineCmd.noteOn 5 84 100]) :=
  ⟨by decide,
    ((sf2_c7_transpose_scope { instD with octave_transpose := 2 } [0xB5, 10, 99] 0).2
      (by decide)).2.1 (by decide) (by decide),
    (sf2_c7_transpose_scope { instD with octave_transpose := 2 } [0x95] 0).1 (by decide),
    ((sf2_c7_transpose_scope { instD with octave_transpose := 2 } [0x95, 60, 100] 0).2
      (by decide)).2.2.2.2.2.1 (by decide) (by decide)⟩

/-! ## Claim C8 — catalog scan -/

theorem lexLe_trans : ∀ (a b c : List Char), lexLe a b → lexLe b c → lexLe a c := by
  intro a
  induction a with
  | nil => intro b c _ _; rfl
  | cons x xs ih =>
    intro b c hab hbc
    cases b with
    | nil => simp [lexLe] at hab
    | cons y ys =>
      cases c with
      | nil => simp [lexLe] at hbc
      | cons z zs =>
        simp only [lexLe] at hab hbc ⊢
        rcases Nat.lt_trichotomy x.toNat y.toNat with hxy | hxy | hxy <;>
          rcases Nat.lt_trichotomy y.toNat z.toNat with hyz | hyz | hyz
        · rw [if_pos (by omega)]
        · rw [if_pos (by omega)]
        · rw [if_neg (by omega), if_pos hyz] at hbc
          simp at hbc
        · rw [if_pos (by omega)]
        · rw [if_neg (by omega), if_neg (by omega)] at hab
          rw [if_neg (by omega), if_neg (by omega)] at hbc
          rw [if_neg (by omega), if_neg (by omega)]
          exact ih ys zs hab hbc
        · rw [if_neg (by omega), if_pos hyz] at hbc
          simp at hbc
        · rw [if_neg (by omega), if_pos hxy] at hab
          simp at hab
        · rw [if_neg (by omega), if_pos hxy] at hab
          simp at hab
        · rw [if_neg (by omega), if_pos hxy] at hab
          simp at hab

theorem lexLe_total : ∀ (a b : List Char), lexLe a b || lexLe b a := by
  intro a
  induction a with
  | nil => intro b; simp [lexLe]
  | cons x xs ih =>
    intro b
    cases b with
    | nil => simp [lexLe]
    | cons y ys =>
      simp only [lexLe]
      rcases Nat.lt_trichotomy x.toNat y.toNat with h | h | h
      · rw [if_pos h]
        simp
      · rw [if_neg (by omega), if_neg (by omega), if_neg (by omega), if_neg (by omega)]
        exact ih ys
      · rw [if_neg (by omega), if_pos h, if_pos h]
        simp

theorem caseLe_trans (a b c : soundfont_entry_t) :
    caseLe a b → caseLe b c → caseLe a c :=
  lexLe_trans _ _ _

theorem caseLe_total (a b : soundfont_entry_t) : caseLe a b || caseLe b a :=
  lexLe_total _ _

/-- C8: scanning a missing (`none`) or empty directory yields the empty
catalog; for every listing (any ordering and casing) the result holds at
most `MAX_SOUNDFONTS` entries, is pairwise sorted by the case-insensitive
comparator, and contains only non-hidden entries whose extension matches
`".sf2"` case-insensitively, with `path = <dir>/soundfonts/<name>`. -/
theorem sf2_c8_catalog_scan :
    (∀ m : String, scan_soundfonts m none = []) ∧
    (∀ m : String, scan_soundfonts m (some []) = []) ∧
    (∀ (m : String) (ls : List String),
      (scan_soundfonts m (some ls)).length ≤ MAX_SOUNDFONTS ∧
      (scan_soundfonts m (some ls)).Pairwise (fun a b => caseLe a b = true) ∧
      (∀ e ∈ scan_soundfonts m (some ls),
        scan_keep e.name.data = true ∧
        e.path = m ++ "/soundfonts" ++ "/" ++ e.name)) := by
  refine ⟨fun m => rfl, fun m => by simp [scan_soundfonts, List.mergeSort],
    fun m ls => ⟨?_, ?_, ?_⟩⟩
  · simp only [scan_soundfonts]
    rw [List.length_mergeSort, List.length_map]
    exact List.length_take_le _ _
  · simp only [scan_soundfonts]
    exact List.sorted_mergeSort caseLe_trans caseLe_total _
  · intro e he
    simp only [scan_soundfonts] at he
    rw [List.mem_mergeSort] at he
    obtain ⟨n, hn, rfl⟩ := List.mem_map.mp he
    have hf := List.mem_filter.mp (List.mem_of_mem_take hn)
    exact ⟨hf.2, rfl⟩

/-- Witness for C8: the spec's own example — `Bass.sf2`, `bass.sf2`
(case duplicate) and `lead.SF2` plus a hidden file and a non-`.sf2`
file; the scan keeps three entries in case-insensitive order and every
kept entry passes the filter. -/
theorem sf2_c8_witness :
    scan_soundfonts ("m")
        (some [("lead.SF2"), ("Bass.sf2"), (".hid.sf2"), ("readme.txt"), ("bass.sf2")]) =
      [⟨("m/soundfonts/Bass.sf2"), ("Bass.sf2")⟩,
       ⟨("m/soundfonts/bass.sf2"), ("bass.sf2")⟩,
       ⟨("m/soundfonts/lead.SF2"), ("lead.SF2")⟩] ∧
    (⟨("m/soundfonts/Bass.sf2"), ("Bass.sf2")⟩ : soundfont_entry_t) ∈
      scan_soundfonts ("m")
        (some [("lead.SF2"), ("Bass.sf2"), (".hid.sf2"), ("readme.txt"), ("bass.sf2")]) ∧
    scan_keep (("Bass.sf2" : String)).data = true := by
  have hscan : scan_soundfonts ("m")
      (some [("lead.SF2"), ("Bass.sf2"), (".hid.sf2"), ("readme.txt"), ("bass.sf2")]) =
      [⟨("m/soundfonts/Bass.sf2"), ("Bass.sf2")⟩,
       ⟨("m/soundfonts/bass.sf2"), ("bass.sf2")⟩,
       ⟨("m/soundfonts/lead.SF2"), ("lead.SF2")⟩] := by
    simp only [scan_soundfonts, MAX_SOUNDFONTS]
    rw [show List.filter (fun n => scan_keep n.data)
        [("lead.SF2"), ("Bass.sf2"), (".hid.sf2"), ("readme.txt"), ("bass.sf2")] =
        [("lead.SF2"), ("Bass.sf2"), ("bass.sf2")] from by decide]
    rw [show List.take 64 [("lead.SF2"), ("Bass.sf2"), ("bass.sf2")] =
        [("lead.SF2"), ("Bass.sf2"), ("bass.sf2")] from by decide]
    simp [List.mergeSort, List.merge, caseLe, lexLe, lowerL, lowerC]
  have hmem : (⟨("m/soundfonts/Bass.sf2"), ("Bass.sf2")⟩ : soundfont_entry_t) ∈
      scan_soundfonts ("m")
        (some [("lead.SF2"), ("Bass.sf2"), (".hid.sf2"), ("readme.txt"), ("bass.sf2")]) := by
    rw [hscan]
    decide
  exact ⟨hscan, hmem,
    ((sf2_c8_catalog_scan.2.2 ("m")
      [("lead.SF2"), ("Bass.sf2"), (".hid.sf2"), ("readme.txt"), ("bass.sf2")]).2.2
      _ hmem).1⟩

/-! ## Claim C3 — default-soundfont resolution -/

theorem takeWhile_all_append {p : Char → Bool} :
    ∀ (a : List Char) (c : Char) (b : List Char), (∀ x ∈ a, p x = true) → p c = false →
    (a ++ c :: b).takeWhile p = a := by
  intro a
  induction a with
  | nil =>
    intro c b _ hc
    simp [List.takeWhile_cons, hc]
  | cons x xs ih =>
    intro c b h hc
    simp only [List.cons_append, List.takeWhile_cons]
    rw [h x (List.mem_cons_self x xs)]
    simp only [if_true]
    rw [ih c b (fun y hy => h y (List.mem_cons_of_mem x hy)) hc]

theorem basename_concat {n : String} (dir : String) (hn : ('/' : Char) ∉ n.data) :
    basename (dir ++ "/" ++ n) = n := by
  unfold basename basenameL
  have hdata : (dir ++ "/" ++ n).data = dir.data ++ '/' :: n.data := by
    rw [String.data_append, String.data_append, List.append_assoc]
    rfl
  rw [hdata, List.reverse_append, List.reverse_cons, List.append_assoc,
    List.singleton_append,
    takeWhile_all_append n.data.reverse '/' dir.data.reverse
      (fun x hx => by
        rw [List.mem_reverse] at hx
        simp only [decide_eq_true_eq]
        intro hcontra
        exact hn (hcontra ▸ hx))
      (by simp),
    List.reverse_reverse]

theorem findIdx?_congr_mem {α : Type} :
    ∀ {l : List α} {p q : α → Bool},
    (∀ x ∈ l, p x = q x) → l.findIdx? p = l.findIdx? q := by
  intro l
  induction l with
  | nil => intro p q _; rfl
  | cons x xs ih =>
    intro p q h
    rw [List.findIdx?_cons, List.findIdx?_cons, List.findIdx?_succ, List.findIdx?_succ]
    rw [h x (List.mem_cons_self x xs)]
    rw [ih (fun y hy => h y (List.mem_cons_of_mem x hy))]

theorem name_index_unique {sfs : List soundfont_entry_t}
    (hnd : (sfs.map (fun e => e.name)).Nodup) {i j : Nat}
    (hi : i < sfs.length) (hj : j < sfs.length)
    (h : (sfs[i]).name = (sfs[j]).name) : i = j := by
  have hi' : i < (sfs.map (fun e => e.name)).length := by simpa using hi
  have hj' : j < (sfs.map (fun e => e.name)).length := by simpa using hj
  have h2 : (sfs.map (fun e => e.name))[i] = (sfs.map (fun e => e.name))[j] := by
    simpa using h
  exact (List.Nodup.getElem_inj_iff hnd).mp h2

/-- The code's single-pass resolution agrees with the spec's
path-preferred rule on every well-formed catalog (each entry's path is
`dir/name` with a slash-free name, names pairwise distinct) because a
full-path match forces the same entry to be the unique filename match. -/
theorem resolve_default_eq (sfs : List soundfont_entry_t) (dir d : String)
    (hwf : ∀ e ∈ sfs, e.path = dir ++ "/" ++ e.name ∧ ('/' : Char) ∉ e.name.data)
    (hnd : (sfs.map (fun e => e.name)).Nodup) :
    resolve_default_index sfs d = resolve_default_spec sfs d := by
  unfold resolve_default_index resolve_default_spec
  cases hp : sfs.findIdx? (fun e => decide (e.path = d)) with
  | none =>
    have hnone : ∀ e ∈ sfs, ¬ (e.path = d) := by
      intro e he
      have := List.findIdx?_eq_none_iff.mp hp e he
      simpa using this
    have hcongr : sfs.findIdx? (fun e => decide (e.path = d ∨ e.name = basename d)) =
        sfs.findIdx? (fun e => decide (e.name = basename d)) := by
      apply findIdx?_congr_mem
      intro x hx
      simp [hnone x hx]
    rw [hcongr]
  | some k =>
    obtain ⟨hk, pk, hmin⟩ := List.findIdx?_eq_some_iff_getElem.mp hp
    have hpk : (sfs[k]).path = d := by simpa using pk
    have hin : sfs[k] ∈ sfs := List.getElem_mem hk
    have hwfk := hwf _ hin
    have hbase : basename d = (sfs[k]).name := by
      rw [← hpk, hwfk.1]
      exact basename_concat dir hwfk.2
    have hcomb : sfs.findIdx? (fun e => decide (e.path = d ∨ e.name = basename d)) =
        some k := by
      rw [List.findIdx?_eq_some_iff_getElem]
      refine ⟨hk, by simp [hpk], ?_⟩
      intro j hj
      have hj' : j < sfs.length := Nat.lt_trans hj hk
      simp only [decide_eq_true_eq, Bool.not_eq_true, decide_eq_false_iff_not]
      rintro (hpath | hname)
      · have h2 := hmin j hj
        simp only [decide_eq_true_eq] at h2
        exact h2 hpath
      · have : j = k := name_index_unique hnd hj' hk (by rw [hname, hbase])
        omega
    rw [hcomb]

/-- C3: on a well-formed catalog the code's resolution equals the spec's
path-preferred rule (exact path match wins, else filename match, else
index 0); with no match at all the resolved index is 0; with an empty
catalog and a non-empty default hint, creation loads the literal default
path directly. -/
theorem sf2_c3_default_resolution :
    (∀ (sfs : List soundfont_entry_t) (dir d : String),
      (∀ e ∈ sfs, e.path = dir ++ "/" ++ e.name ∧ ('/' : Char) ∉ e.name.data) →
      (sfs.map (fun e => e.name)).Nodup →
      resolve_default_index sfs d = resolve_default_spec sfs d) ∧
    (∀ (sfs : List soundfont_entry_t) (d : String),
      (∀ e ∈ sfs, ¬ (e.path = d ∨ e.name = basename d)) →
      resolve_default_index sfs d = 0) ∧
    (∀ (env : Env) (m d : String), scan_soundfonts m env.listing = [] → d ≠ "" →
      EngineCmd.sfload d ∈ (v2_create_instance env m d).2) := by
  refine ⟨resolve_default_eq, ?_, ?_⟩
  · intro sfs d h
    unfold resolve_default_index
    have hnone : sfs.findIdx? (fun e => decide (e.path = d ∨ e.name = basename d)) =
        none := by
      rw [List.findIdx?_eq_none_iff]
      intro x hx
      simp [h x hx]
    rw [hnone]
  · intro env m d hscan hd
    unfold v2_create_instance
    dsimp only
    rw [hscan]
    rw [if_neg (by simp)]
    rw [if_pos hd]
    exact load_cmds_sfload env _ d

/-- Witness for C3: a well-formed two-entry catalog; the default path
`m/soundfonts/b.sf2` resolves to index 1 under both rules, and a
no-match default resolves to 0. -/
theorem sf2_c3_witness :
    (∀ e ∈ [entA, entB], e.path = ("m/soundfonts") ++ "/" ++ e.name ∧
      ('/' : Char) ∉ e.name.data) ∧
    resolve_default_index [entA, entB] ("m/soundfonts/b.sf2") =
      resolve_default_spec [entA, entB] ("m/soundfonts/b.sf2") ∧
    resolve_default_index [entA, entB] ("m/soundfonts/b.sf2") = 1 ∧
    resolve_default_index [entA, entB] ("nothing.sf2") = 0 :=
  ⟨by decide,
    sf2_c3_default_resolution.1 [entA, entB] ("m/soundfonts") ("m/soundfonts/b.sf2")
      (by decide) (by decide),
    by decide,
    sf2_c3_default_resolution.2.1 [entA, entB] ("nothing.sf2") (by decide)⟩

/-! ## Claim C1 — state round-trip -/

/-- The catalog entry the stored index points at. -/
def entryAt (inst : sf2_instance_t) : soundfont_entry_t :=
  inst.soundfonts.getD inst.soundfont_index.toNat ⟨"", ""⟩

/-- The stored index points into the catalog. -/
def ValidIdx (inst : sf2_instance_t) : Prop :=
  0 < inst.soundfonts.length ∧ inst.soundfont_index < (inst.soundfonts.length : Int)

/-- Consistency of a live instance with its environment: the scalar and
preset invariants hold, the index is nonnegative, catalog names are
distinct (they are file names of one directory), and — when the index is
valid — reloading the selected entry's file succeeds and reproduces the
instance's presets, path, and display name (the file has not changed). -/
def Good (env : Env) (inst : sf2_instance_t) : Prop :=
  ScalarBounds inst ∧ PresetInv inst ∧ 0 ≤ inst.soundfont_index ∧
  (inst.soundfonts.map (fun e => e.name)).Nodup ∧
  (ValidIdx inst →
    0 ≤ (env.load (entryAt inst).path).sfontId ∧
    (env.load (entryAt inst).path).presets.take MAX_PRESETS = inst.presets ∧
    inst.soundfont_path = (entryAt inst).path ∧
    inst.soundfont_name = basename (entryAt inst).path)

instance (inst : sf2_instance_t) : Decidable (ValidIdx inst) := by
  unfold ValidIdx; infer_instance

instance (env : Env) (inst : sf2_instance_t) : Decidable (Good env inst) := by
  unfold Good; infer_instance

theorem get_state_fields_valid {inst : sf2_instance_t}
    (hV : 0 < inst.soundfonts.length ∧
      inst.soundfont_index < (inst.soundfonts.length : Int)) :
    get_state inst = ⟨(entryAt inst).name, inst.soundfont_index,
      inst.current_preset, inst.octave_transpose, round2 inst.gain⟩ := by
  unfold get_state entryAt
  dsimp only
  rw [if_pos hV]

theorem get_state_fields_stale {inst : sf2_instance_t}
    (hV : ¬ (0 < inst.soundfonts.length ∧
      inst.soundfont_index < (inst.soundfonts.length : Int))) :
    get_state inst = ⟨"", inst.soundfont_index,
      inst.current_preset, inst.octave_transpose, round2 inst.gain⟩ := by
  unfold get_state
  dsimp only
  rw [if_neg hV]

theorem entryAt_getElem {inst : sf2_instance_t}
    (hlt : inst.soundfont_index.toNat < inst.soundfonts.length) :
    entryAt inst = inst.soundfonts[inst.soundfont_index.toNat] := by
  unfold entryAt
  rw [List.getD_eq_getElem?_getD, List.getElem?_eq_getElem hlt, Option.getD_some]

theorem find_name_self {inst : sf2_instance_t}
    (hnd : (inst.soundfonts.map (fun e => e.name)).Nodup)
    (h0 : 0 ≤ inst.soundfont_index) (hV : ValidIdx inst) :
    find_soundfont_by_name inst (entryAt inst).name = inst.soundfont_index := by
  have hlt : inst.soundfont_index.toNat < inst.soundfonts.length := by
    rcases hV with ⟨h1, h2⟩
    omega
  unfold find_soundfont_by_name
  have hfind : inst.soundfonts.findIdx? (fun e => decide (e.name = (entryAt inst).name)) =
      some inst.soundfont_index.toNat := by
    rw [List.findIdx?_eq_some_iff_getElem]
    refine ⟨hlt, ?_, ?_⟩
    · rw [entryAt_getElem hlt]
      simp
    · intro j hj
      simp only [decide_eq_true_eq, Bool.not_eq_true, decide_eq_false_iff_not]
      intro hname
      rw [entryAt_getElem hlt] at hname
      have : j = inst.soundfont_index.toNat :=
        name_index_unique hnd (Nat.lt_trans hj hlt) hlt hname
      omega
  rw [hfind]
  show ((inst.soundfont_index.toNat : Nat) : Int) = inst.soundfont_index
  omega

theorem select_preset_empty {inst : sf2_instance_t} (h : inst.presets = [])
    (i : Int) : select_preset inst i = (inst, []) := by
  unfold select_preset
  rw [if_pos (by rw [h]; rfl)]

theorem set_soundfont_index_self (env : Env) {inst : sf2_instance_t}
    (h0 : 0 ≤ inst.soundfont_index) (hV : ValidIdx inst) :
    set_soundfont_index env inst inst.soundfont_index =
      ((load_soundfont env inst (entryAt inst).path).1,
        (load_soundfont env inst (entryAt inst).path).2.1) := by
  simp only [set_soundfont_index]
  rw [if_neg (by rcases hV with ⟨h1, _⟩; omega)]
  rw [wrapIdx_id h0 hV.2]
  rfl

theorem load_success_fields (env : Env) (inst : sf2_instance_t) (path : String)
    (h : 0 ≤ (env.load path).sfontId) :
    (load_soundfont env inst path).1.load_error = "" ∧
    (load_soundfont env inst path).1.soundfont_name = basename path ∧
    (load_soundfont env inst path).1.soundfont_path = path ∧
    (load_soundfont env inst path).1.presets =
      (env.load path).presets.take MAX_PRESETS := by
  simp only [load_soundfont]
  rw [if_neg (by omega)]
  split <;> exact ⟨rfl, rfl, rfl, rfl⟩

theorem obs_eq_of_fields {x y : sf2_instance_t}
    (h1 : x.soundfont_name = y.soundfont_name)
    (h2 : x.soundfont_path = y.soundfont_path)
    (h3 : x.soundfont_index = y.soundfont_index)
    (h4 : x.current_preset = y.current_preset)
    (h5 : x.octave_transpose = y.octave_transpose)
    (h6 : round2 x.gain = round2 y.gain) : obs x = obs y := by
  unfold obs
  rw [h1, h2, h3, h4, h5, h6]

/-- Restoring an instance's own serialized state leaves every
round-trip-relevant field unchanged (gain lands on its `"%.2f"` value,
which is what `get_param` reads back). -/
theorem restore_fields (env : Env) {inst : sf2_instance_t} (hG : Good env inst) :
    (set_state env inst (get_state inst)).1.soundfont_name = inst.soundfont_name ∧
    (set_state env inst (get_state inst)).1.soundfont_path = inst.soundfont_path ∧
    (set_state env inst (get_state inst)).1.soundfont_index = inst.soundfont_index ∧
    (set_state env inst (get_state inst)).1.current_preset = inst.current_preset ∧
    (set_state env inst (get_state inst)).1.presets = inst.presets ∧
    (set_state env inst (get_state inst)).1.soundfonts = inst.soundfonts ∧
    (set_state env inst (get_state inst)).1.octave_transpose = inst.octave_transpose ∧
    (set_state env inst (get_state inst)).1.gain = round2 inst.gain := by
  obtain ⟨hSB, hPI, h0, hnd, hvalid⟩ := hG
  have hclT : clampT inst.octave_transpose = inst.octave_transpose :=
    clampT_id hSB.1 hSB.2.1
  have hclG : clampG (round2 inst.gain) = round2 inst.gain :=
    clampG_id (round2_nonneg hSB.2.2.1) (round2_le_two hSB.2.2.2)
  by_cases hV : 0 < inst.soundfonts.length ∧
      inst.soundfont_index < (inst.soundfonts.length : Int)
  · obtain ⟨hsf, hps, hpath, hname⟩ := hvalid hV
    have hL := load_success_fields env inst (entryAt inst).path hsf
    have hLs := load_soundfont_scalars env inst (entryAt inst).path
    have hLpresets : (load_soundfont env inst (entryAt inst).path).1.presets =
        inst.presets := by rw [hL.2.2.2, hps]
    have hstep1 : (set_state env inst (get_state inst)).1 =
        { (select_preset (load_soundfont env inst (entryAt inst).path).1
            inst.current_preset).1 with
            octave_transpose := clampT inst.octave_transpose,
            gain := clampG (round2 inst.gain) } := by
      rw [get_state_fields_valid hV]
      unfold set_state
      dsimp only
      by_cases hne : (entryAt inst).name ≠ ""
      · rw [if_pos hne, find_name_self hnd h0 hV, ite_self, if_pos h0,
          set_soundfont_index_self env h0 hV]
      · rw [if_neg hne,
          if_pos (show (-1 : Int) < 0 ∧ 0 ≤ inst.soundfont_index ∧
            inst.soundfont_index < (inst.soundfonts.length : Int) from
            ⟨by norm_num, h0, hV.2⟩),
          if_pos h0, set_soundfont_index_self env h0 hV]
    have hSsc := select_preset_scalars
      (load_soundfont env inst (entryAt inst).path).1 inst.current_preset
    refine ⟨?_, ?_, ?_, ?_, ?_, ?_, ?_, ?_⟩
    · rw [hstep1]
      show (select_preset _ _).1.soundfont_name = _
      rw [hSsc.2.2.2.2.2.1, hL.2.1]
      exact hname.symm
    · rw [hstep1]
      show (select_preset _ _).1.soundfont_path = _
      rw [hSsc.2.2.2.2.1, hL.2.2.1]
      exact hpath.symm
    · rw [hstep1]
      show (select_preset _ _).1.soundfont_index = _
      rw [hSsc.2.2.2.1, hLs.2.2.2.1]
    · rw [hstep1]
      show (select_preset _ _).1.current_preset = _
      by_cases hemp : inst.presets = []
      · rw [select_preset_empty (by rw [hLpresets, hemp]) _]
        rw [hLs.2.2.2.2.2]
        exact (hPI.2.1 (by rw [hemp]; rfl)).symm
      · have hlen0 : 0 < inst.presets.length := List.length_pos.mpr hemp
        have hlen : 0 < (load_soundfont env inst (entryAt inst).path).1.presets.length := by
          rw [hLpresets]; exact hlen0
        rw [select_preset_idx _ _ hlen, hLpresets]
        exact wrapIdx_id hPI.1 (hPI.2.2 hlen0)
    · rw [hstep1]
      show (select_preset _ _).1.presets = _
      rw [hSsc.2.2.2.2.2.2.1, hLpresets]
    · rw [hstep1]
      show (select_preset _ _).1.soundfonts = _
      rw [hSsc.2.2.1, hLs.2.2.1]
    · rw [hstep1]
      show clampT inst.octave_transpose = _
      exact hclT
    · rw [hstep1]
      show clampG (round2 inst.gain) = _
      exact hclG
  · have hstep1 : (set_state env inst (get_state inst)).1 =
        { (select_preset inst inst.current_preset).1 with
            octave_transpose := clampT inst.octave_transpose,
            gain := clampG (round2 inst.gain) } := by
      rw [get_state_fields_stale hV]
      unfold set_state
      dsimp only
      rw [if_neg (show ¬(("" : String) ≠ "") from by simp)]
      rw [show (if (-1 : Int) < 0 ∧ 0 ≤ inst.soundfont_index ∧
            inst.soundfont_index < (inst.soundfonts.length : Int)
          then inst.soundfont_index else (-1 : Int)) = -1 from
        if_neg (by intro hc; exact hV ⟨by omega, hc.2.2⟩)]
      rw [if_neg (show ¬((0 : Int) ≤ -1) from by norm_num)]
    have hSsc := select_preset_scalars inst inst.current_preset
    refine ⟨?_, ?_, ?_, ?_, ?_, ?_, ?_, ?_⟩
    · rw [hstep1]
      show (select_preset _ _).1.soundfont_name = _
      rw [hSsc.2.2.2.2.2.1]
    · rw [hstep1]
      show (select_preset _ _).1.soundfont_path = _
      rw [hSsc.2.2.2.2.1]
    · rw [hstep1]
      show (select_preset _ _).1.soundfont_index = _
      rw [hSsc.2.2.2.1]
    · rw [hstep1]
      show (select_preset _ _).1.current_preset = _
      by_cases hemp : inst.presets = []
      · rw [select_preset_empty hemp _]
      · have hlen0 : 0 < inst.presets.length := List.length_pos.mpr hemp
        rw [select_preset_idx _ _ hlen0]
        exact wrapIdx_id hPI.1 (hPI.2.2 hlen0)
    · rw [hstep1]
      show (select_preset _ _).1.presets = _
      rw [hSsc.2.2.2.2.2.2.1]
    · rw [hstep1]
      show (select_preset _ _).1.soundfonts = _
      rw [hSsc.2.2.1]
    · rw [hstep1]
      show clampT inst.octave_transpose = _
      exact hclT
    · rw [hstep1]
      show clampG (round2 inst.gain) = _
      exact hclG

theorem restore_good (env : Env) {inst : sf2_instance_t} (hG : Good env inst) :
    Good env (set_state env inst (get_state inst)).1 := by
  obtain ⟨h1, h2, h3, h4, h5, h6, h7, h8⟩ := restore_fields env hG
  obtain ⟨hSB, hPI, h0, hnd, hvalid⟩ := hG
  refine ⟨?_, ?_, ?_, ?_, ?_⟩
  · exact ⟨by rw [h7]; exact hSB.1, by rw [h7]; exact hSB.2.1,
      by rw [h8]; exact round2_nonneg hSB.2.2.1,
      by rw [h8]; exact round2_le_two hSB.2.2.2⟩
  · exact ⟨by rw [h4]; exact hPI.1, by rw [h4, h5]; exact hPI.2.1,
      by rw [h4, h5]; exact hPI.2.2⟩
  · rw [h3]; exact h0
  · rw [h6]; exact hnd
  · intro hVR
    have hVI : ValidIdx inst := by
      unfold ValidIdx at hVR ⊢
      rw [h6, h3] at hVR
      exact hVR
    have hE : entryAt (set_state env inst (get_state inst)).1 = entryAt inst := by
      unfold entryAt
      rw [h6, h3]
    obtain ⟨p1, p2, p3, p4⟩ := hvalid hVI
    rw [hE, h5, h2, h1]
    exact ⟨p1, p2, p3, p4⟩

theorem restore_get_state (env : Env) {inst : sf2_instance_t} (hG : Good env inst) :
    get_state (set_state env inst (get_state inst)).1 = get_state inst := by
  obtain ⟨_h1, _h2, h3, h4, _h5, h6, h7, h8⟩ := restore_fields env hG
  set R := (set_state env inst (get_state inst)).1 with hR
  unfold get_state
  dsimp only
  rw [h3, h4, h6, h7, h8, round2_idem]

theorem truncQ_intCast (i : Int) : truncQ ((i : ℚ)) = i := by
  unfold truncQ
  rw [Rat.num_intCast, Rat.den_intCast]
  exact_mod_cast Int.tdiv_one i

/-- The `"state"` branch as written coincides with its blob-level
specification whenever each of the five transported fields parses back
out of the JSON string. -/
theorem set_state_str_eq (env : Env) (inst : sf2_instance_t) (val : String)
    (b : StateBlob)
    (hn : json_get_string val ("soundfont_name") = some b.soundfont_name)
    (hi : json_get_number val ("soundfont_index") = some ((b.soundfont_index : Int) : ℚ))
    (hp : json_get_number val ("preset") = some ((b.preset : Int) : ℚ))
    (ht : json_get_number val ("octave_transpose") =
      some ((b.octave_transpose : Int) : ℚ))
    (hg : json_get_number val ("gain") = some b.gain) :
    set_state_str env inst val = set_state env inst b := by
  unfold set_state_str state_restore_sf state_restore_preset state_restore_transpose
    state_restore_gain set_state
  rw [hn, hi, hp, ht, hg]
  dsimp only
  rw [truncQ_intCast, truncQ_intCast, truncQ_intCast]

/-- The instance's own serialized state parses back field-for-field.
This fails exactly when a soundfont file name injects JSON syntax into
the blob (see `sf2_c1_counterexample`); any name free of the `'"'`
character keeps it true. -/
def ParsesBack (inst : sf2_instance_t) : Prop :=
  json_get_string (stateJson (get_state inst)) ("soundfont_name") =
    some (get_state inst).soundfont_name ∧
  json_get_number (stateJson (get_state inst)) ("soundfont_index") =
    some (((get_state inst).soundfont_index : Int) : ℚ) ∧
  json_get_number (stateJson (get_state inst)) ("preset") =
    some (((get_state inst).preset : Int) : ℚ) ∧
  json_get_number (stateJson (get_state inst)) ("octave_transpose") =
    some (((get_state inst).octave_transpose : Int) : ℚ) ∧
  json_get_number (stateJson (get_state inst)) ("gain") =
    some (get_state inst).gain

instance (inst : sf2_instance_t) : Decidable (ParsesBack inst) := by
  unfold ParsesBack; infer_instance

/-- C1 (amended): for an instance whose catalog and selected file are
unchanged and whose serialized state parses back field-for-field (true
whenever the soundfont names are free of JSON-breaking characters),
`get_param("state")` returns the serialized blob and
`set_param("state", ·)` of that very string restores bank name, path and
index, preset index, transpose, and gain to the same observable values,
and applying the same string a second time changes nothing
(idempotence). -/
theorem sf2_c1_state_roundtrip (env : Env) (inst : sf2_instance_t)
    (hG : Good env inst) (hpb : ParsesBack inst) :
    (v2_get_param env inst ("state")).2 = some (stateJson (get_state inst)) ∧
    obs (v2_set_param env inst ("state") (stateJson (get_state inst))).1 = obs inst ∧
    obs (v2_set_param env
        (v2_set_param env inst ("state") (stateJson (get_state inst))).1
        ("state") (stateJson (get_state inst))).1 = obs inst := by
  obtain ⟨hn, hi, hp, ht, hg⟩ := hpb
  have hobs : obs (set_state env inst (get_state inst)).1 = obs inst := by
    obtain ⟨h1, h2, h3, h4, _h5, _h6, h7, h8⟩ := restore_fields env hG
    exact obs_eq_of_fields h1 h2 h3 h4 h7 (by rw [h8, round2_idem])
  have hgood := restore_good env hG
  have hgs := restore_get_state env hG
  have hbr1 : set_state_str env inst (stateJson (get_state inst)) =
      set_state env inst (get_state inst) :=
    set_state_str_eq env inst _ _ hn hi hp ht hg
  have hbr2 : set_state_str env (set_state env inst (get_state inst)).1
        (stateJson (get_state inst)) =
      set_state env (set_state env inst (get_state inst)).1 (get_state inst) :=
    set_state_str_eq env _ _ _ hn hi hp ht hg
  refine ⟨rfl, ?_, ?_⟩
  · show obs (set_state_str env inst (stateJson (get_state inst))).1 = obs inst
    rw [hbr1]
    exact hobs
  · show obs (set_state_str env
        (set_state_str env inst (stateJson (get_state inst))).1
        (stateJson (get_state inst))).1 = obs inst
    rw [hbr1, hbr2]
    have h2obs : obs (set_state env (set_state env inst (get_state inst)).1
        (get_state (set_state env inst (get_state inst)).1)).1 =
        obs (set_state env inst (get_state inst)).1 := by
      obtain ⟨h1, h2, h3, h4, _h5, _h6, h7, h8⟩ := restore_fields env hgood
      exact obs_eq_of_fields h1 h2 h3 h4 h7 (by rw [h8, round2_idem])
    rw [hgs] at h2obs
    rw [h2obs, hobs]

/-- Witness for C1: the healthy fixture `instD` satisfies both
hypotheses and its state round-trips through the real string transport. -/
theorem sf2_c1_witness :
    Good envD instD ∧ ParsesBack instD ∧
    obs (v2_set_param envD instD ("state") (stateJson (get_state instD))).1 =
      obs instD :=
  ⟨by decide, by with_unfolding_all decide,
    (sf2_c1_state_roundtrip envD instD (by decide)
      (by with_unfolding_all decide)).2.1⟩

/-- A legal soundfont file name that injects a JSON key into the blob. -/
def nastyName : String := "a\"preset\":7,b.sf2"

/-- An eight-preset list. -/
def psL8 : List preset_entry_t :=
  [⟨("P0"), 0, 0⟩, ⟨("P1"), 0, 1⟩, ⟨("P2"), 0, 2⟩, ⟨("P3"), 0, 3⟩,
   ⟨("P4"), 0, 4⟩, ⟨("P5"), 0, 5⟩, ⟨("P6"), 0, 6⟩, ⟨("P7"), 0, 7⟩]

/-- Environment for the counterexample: the nasty file loads fine with
eight presets. -/
def envN : Env := ⟨some [nastyName], fun _ => ⟨1, psL8⟩⟩

/-- A healthy instance whose only soundfont carries the nasty name. -/
def instN : sf2_instance_t :=
  { sfont_id := 1, current_preset := 0, octave_transpose := 0, gain := 1,
    soundfont_path := "m/soundfonts/a\"preset\":7,b.sf2", soundfont_name := nastyName,
    preset_name := ("P0"), soundfont_index := 0,
    soundfonts := [⟨"m/soundfonts/a\"preset\":7,b.sf2", nastyName⟩],
    presets := psL8, module_dir := ("m"), load_error := "" }

/-- Counterexample for C1 as frozen: on `instN` — a consistent instance
whose catalog never changes — `set_param("state", s)` with `s` the very
string `get_param("state")` produced does NOT restore the preset index:
the `strstr`-based extraction finds the `"preset":` key inside the
soundfont's file name and restores preset 7 instead of 0. -/
theorem sf2_c1_counterexample :
    Good envN instN ∧
    (v2_get_param envN instN ("state")).2 = some (stateJson (get_state instN)) ∧
    instN.current_preset = 0 ∧
    (v2_set_param envN instN ("state") (stateJson (get_state instN))).1.current_preset
      = 7 ∧
    obs (v2_set_param envN instN ("state") (stateJson (get_state instN))).1 ≠
      obs instN := by
  refine ⟨by decide, rfl, rfl, ?_, ?_⟩
  · with_unfolding_all decide
  · with_unfolding_all decide

end Sf2
